import Mathlib

/-!
Verification of the transvero audio capture / speech recognition pipeline.

This file gives a shallow embedding, in Lean, of the parts of the source
relevant to the audio container encoder (`AudioRecorder.convertToWAV`),
the recorder stop path (`AudioRecorder.stopRecording`), the diarization
client (`uploadAudio`, `transcribeWithDiarization`), the hybrid
orchestrator (`HybridSpeechRecognitionService`), the on-device recognizer
result handler, and the live-session UI state transitions, together with
theorems settling the specification claims about them.

Conventions of the embedding:
* JavaScript `ArrayBuffer`/`DataView` byte buffers are `List ℕ` with every
  entry a byte value; `DataView` writes are functional updates.
* `Float32` audio samples are modelled as rationals (`ℚ`); the clamping and
  scaling arithmetic performed by the source is exact on the modelled values.
* Fallible code returns `Option`/`Except`; thrown `Error` messages are the
  source's message strings.
-/

/-! ## DataView primitives

`convertToWAV` writes its output through a `DataView`.  A buffer is a list
of byte values; `set` past the end is the identity, but every write the
source performs is in bounds, which the proofs establish.
-/

/-- DataView.setUint8: store a byte (value taken mod 256) at an offset. -/
def setUint8 (buf : List ℕ) (off : ℕ) (v : ℕ) : List ℕ :=
  buf.set off (v % 256)

/-- DataView.setUint16 with littleEndian = true: low byte first. -/
def setUint16 (buf : List ℕ) (off : ℕ) (v : ℕ) : List ℕ :=
  (buf.set off (v % 256)).set (off + 1) (v / 256 % 256)

/-- DataView.setUint32 with littleEndian = true: four bytes, low byte first. -/
def setUint32 (buf : List ℕ) (off : ℕ) (v : ℕ) : List ℕ :=
  (((buf.set off (v % 256)).set (off + 1) (v / 256 % 256)).set
      (off + 2) (v / 65536 % 256)).set (off + 3) (v / 16777216 % 256)

/-- DataView.setInt16 with littleEndian = true: the value is reduced to its
16-bit two's complement representative and stored low byte first. -/
def setInt16 (buf : List ℕ) (off : ℕ) (v : ℤ) : List ℕ :=
  setUint16 buf off (v % 65536).toNat

/-- The `writeString` helper of `convertToWAV`: one `setUint8` of
`charCodeAt(i)` per character, at consecutive offsets. -/
def writeChars (buf : List ℕ) (off : ℕ) : List Char → List ℕ
  | [] => buf
  | c :: cs => writeChars (setUint8 buf off c.toNat) (off + 1) cs

/-- `writeString(offset, string)` from `convertToWAV`. -/
def writeString (buf : List ℕ) (off : ℕ) (s : String) : List ℕ :=
  writeChars buf off s.data

/-! ## Sample conversion

The sample loop of `convertToWAV` clamps each Float32 sample to [-1, 1],
scales it (by 0x8000 when negative, 0x7FFF otherwise), and hands the result
to `DataView.setInt16`, which truncates toward zero (ECMAScript ToInteger)
and wraps to 16 bits.
-/

/-- ECMAScript ToInteger on an exact numeric value: truncation toward zero. -/
def jsTrunc (q : ℚ) : ℤ := if 0 ≤ q then ⌊q⌋ else ⌈q⌉

/-- The clamp `Math.max(-1, Math.min(1, sample))` from the sample loop. -/
def clampSample (s : ℚ) : ℚ := max (-1) (min 1 s)

/-- The integer handed to `setInt16` for one sample:
`sample < 0 ? sample * 0x8000 : sample * 0x7FFF` after clamping,
truncated toward zero by `setInt16`. -/
def encodeSample (s : ℚ) : ℤ :=
  jsTrunc (if clampSample s < 0 then clampSample s * 32768 else clampSample s * 32767)

/-- Inner loop of the sample-writing phase: write each sample of one chunk
with `setInt16`, advancing the offset by 2. -/
def writeBufferSamples (buf : List ℕ) (off : ℕ) : List ℚ → List ℕ
  | [] => buf
  | s :: rest => writeBufferSamples (setInt16 buf off (encodeSample s)) (off + 2) rest

/-- Outer loop of the sample-writing phase: the chunks are written in order
of arrival, sharing one running offset. -/
def writeAllSamples (buf : List ℕ) (off : ℕ) : List (List ℚ) → List ℕ
  | [] => buf
  | b :: rest => writeAllSamples (writeBufferSamples buf off b) (off + 2 * b.length) rest

/-- The `totalLength` computed by `convertToWAV`: sum of the chunk lengths. -/
def totalLen (audioBuffers : List (List ℚ)) : ℕ :=
  (audioBuffers.map List.length).sum

/-- The fixed sequence of header writes of `convertToWAV`, in source order. -/
def writeWavHeader (buf : List ℕ) (totalLength sampleRate : ℕ) : List ℕ :=
  setUint32 (writeString
    (setUint16 (setUint16 (setUint32 (setUint32 (setUint16 (setUint16 (setUint32 (writeString
      (writeString (setUint32 (writeString buf 0 "RIFF") 4 (36 + totalLength * 2)) 8 "WAVE")
      12 "fmt ") 16 16) 20 1) 22 1) 24 sampleRate) 28 (sampleRate * 2)) 32 2) 34 16)
    36 "data") 40 (totalLength * 2)

/-- `AudioRecorder.convertToWAV`: fails (throws "No audio data to convert")
when the total sample count is zero; otherwise allocates a buffer of
`44 + totalLength * 2` zero bytes, writes the WAV header, then writes every
sample as little-endian PCM16. -/
def convertToWAV (audioBuffers : List (List ℚ)) (sampleRate : ℕ) : Option (List ℕ) :=
  if totalLen audioBuffers = 0 then none
  else
    some (writeAllSamples
      (writeWavHeader (List.replicate (44 + totalLen audioBuffers * 2) 0)
        (totalLen audioBuffers) sampleRate)
      44 audioBuffers)

/-! ## Specification-side byte encoders

These are plain little-endian encoders, used to state what the imperative
writer above produces.
-/

/-- Little-endian bytes of a 16-bit unsigned value. -/
def u16le (v : ℕ) : List ℕ := [v % 256, v / 256 % 256]

/-- Little-endian bytes of a 32-bit unsigned value. -/
def u32le (v : ℕ) : List ℕ :=
  [v % 256, v / 256 % 256, v / 65536 % 256, v / 16777216 % 256]

/-- Little-endian bytes of a 16-bit two's complement signed value. -/
def i16le (v : ℤ) : List ℕ := u16le (v % 65536).toNat

/-- Code-unit bytes of an ASCII chunk id. -/
def asciiBytes (s : String) : List ℕ := s.data.map Char.toNat

/-- PCM16 data section: each sample clamped, scaled, truncated, and written
as little-endian signed 16 bit, in order. -/
def pcm16Bytes (samples : List ℚ) : List ℕ :=
  samples.flatMap fun s => i16le (encodeSample s)

/-- The complete WAV image for a flat sample list: 44-byte header followed
by the PCM16 data section. -/
def wavBytes (samples : List ℚ) (sampleRate : ℕ) : List ℕ :=
  asciiBytes "RIFF" ++ u32le (36 + samples.length * 2) ++ asciiBytes "WAVE" ++
  asciiBytes "fmt " ++ u32le 16 ++ u16le 1 ++ u16le 1 ++ u32le sampleRate ++
  u32le (sampleRate * 2) ++ u16le 2 ++ u16le 16 ++ asciiBytes "data" ++
  u32le (samples.length * 2) ++ pcm16Bytes samples

theorem pcm16Bytes_nil : pcm16Bytes [] = [] := rfl

theorem pcm16Bytes_cons (s : ℚ) (rest : List ℚ) :
    pcm16Bytes (s :: rest) = i16le (encodeSample s) ++ pcm16Bytes rest := rfl

theorem pcm16Bytes_append (l m : List ℚ) :
    pcm16Bytes (l ++ m) = pcm16Bytes l ++ pcm16Bytes m := by
  simp [pcm16Bytes]

theorem pcm16Bytes_length (l : List ℚ) : (pcm16Bytes l).length = 2 * l.length := by
  induction l with
  | nil => rfl
  | cons s rest ih =>
      simp only [pcm16Bytes_cons, List.length_append, List.length_cons, ih]
      simp [i16le, u16le]
      omega

theorem totalLen_eq_length_flatten (buffers : List (List ℚ)) :
    totalLen buffers = buffers.flatten.length := by
  simp [totalLen, List.length_flatten]

/-- The 44-byte header concatenation, without the data section. -/
def hdrBytes (n r : ℕ) : List ℕ :=
  asciiBytes "RIFF" ++ u32le (36 + n * 2) ++ asciiBytes "WAVE" ++
  asciiBytes "fmt " ++ u32le 16 ++ u16le 1 ++ u16le 1 ++ u32le r ++
  u32le (r * 2) ++ u16le 2 ++ u16le 16 ++ asciiBytes "data" ++ u32le (n * 2)

theorem wavBytes_eq_hdr_append (samples : List ℚ) (r : ℕ) :
    wavBytes samples r = hdrBytes samples.length r ++ pcm16Bytes samples := rfl

theorem hdrBytes_length (n r : ℕ) : (hdrBytes n r).length = 44 := rfl

set_option maxHeartbeats 1000000 in
/-- The header writes land entirely in the first 44 bytes: on a buffer whose
first 44 bytes are zero, they produce exactly the header concatenation and
leave the rest of the buffer untouched. -/
theorem writeWavHeader_replicate (tail : List ℕ) (n r : ℕ) :
    writeWavHeader (List.replicate 44 0 ++ tail) n r = hdrBytes n r ++ tail := by
  unfold writeWavHeader writeString
  rw [show ("RIFF").data = ['R', 'I', 'F', 'F'] from rfl,
    show ("WAVE").data = ['W', 'A', 'V', 'E'] from rfl,
    show ("fmt ").data = ['f', 'm', 't', ' '] from rfl,
    show ("data").data = ['d', 'a', 't', 'a'] from rfl]
  simp only [writeChars]
  unfold setUint8 setUint16 setUint32
  rw [show List.set (List.replicate 44 0 ++ tail) (0) ('R'.toNat % 256)
        = 'R'.toNat % 256 :: (List.replicate 43 0 ++ tail) from rfl]
  rw [show List.set ('R'.toNat % 256 :: (List.replicate 43 0 ++ tail)) (0 + 1) ('I'.toNat % 256)
        = 'R'.toNat % 256 :: 'I'.toNat % 256 :: (List.replicate 42 0 ++ tail) from rfl]
  rw [show List.set ('R'.toNat % 256 :: 'I'.toNat % 256 :: (List.replicate 42 0 ++ tail)) (0 + 1 + 1) ('F'.toNat % 256)
        = 'R'.toNat % 256 :: 'I'.toNat % 256 :: 'F'.toNat % 256 :: (List.replicate 41 0 ++ tail) from rfl]
  rw [show List.set ('R'.toNat % 256 :: 'I'.toNat % 256 :: 'F'.toNat % 256 :: (List.replicate 41 0 ++ tail)) (0 + 1 + 1 + 1) ('F'.toNat % 256)
        = 'R'.toNat % 256 :: 'I'.toNat % 256 :: 'F'.toNat % 256 :: 'F'.toNat % 256 :: (List.replicate 40 0 ++ tail) from rfl]
  rw [show List.set ('R'.toNat % 256 :: 'I'.toNat % 256 :: 'F'.toNat % 256 :: 'F'.toNat % 256 :: (List.replicate 40 0 ++ tail)) (4) ((36 + n * 2) % 256)
        = 'R'.toNat % 256 :: 'I'.toNat % 256 :: 'F'.toNat % 256 :: 'F'.toNat % 256 :: (36 + n * 2) % 256 :: (List.replicate 39 0 ++ tail) from rfl]
  rw [show List.set ('R'.toNat % 256 :: 'I'.toNat % 256 :: 'F'.toNat % 256 :: 'F'.toNat % 256 :: (36 + n * 2) % 256 :: (List.replicate 39 0 ++ tail)) (4 + 1) ((36 + n * 2) / 256 % 256)
        = 'R'.toNat % 256 :: 'I'.toNat % 256 :: 'F'.toNat % 256 :: 'F'.toNat % 256 :: (36 + n * 2) % 256 :: (36 + n * 2) / 256 % 256 :: (List.replicate 38 0 ++ tail) from rfl]
  rw [show List.set ('R'.toNat % 256 :: 'I'.toNat % 256 :: 'F'.toNat % 256 :: 'F'.toNat % 256 :: (36 + n * 2) % 256 :: (36 + n * 2) / 256 % 256 :: (List.replicate 38 0 ++ tail)) (4 + 2) ((36 + n * 2) / 65536 % 256)
        = 'R'.toNat % 256 :: 'I'.toNat % 256 :: 'F'.toNat % 256 :: 'F'.toNat % 256 :: (36 + n * 2) % 256 :: (36 + n * 2) / 256 % 256 :: (36 + n * 2) / 65536 % 256 :: (List.replicate 37 0 ++ tail) from rfl]
  rw [show List.set ('R'.toNat % 256 :: 'I'.toNat % 256 :: 'F'.toNat % 256 :: 'F'.toNat % 256 :: (36 + n * 2) % 256 :: (36 + n * 2) / 256 % 256 :: (36 + n * 2) / 65536 % 256 :: (List.replicate 37 0 ++ tail)) (4 + 3) ((36 + n * 2) / 16777216 % 256)
        = 'R'.toNat % 256 :: 'I'.toNat % 256 :: 'F'.toNat % 256 :: 'F'.toNat % 256 :: (36 + n * 2) % 256 :: (36 + n * 2) / 256 % 256 :: (36 + n * 2) / 65536 % 256 :: (36 + n * 2) / 16777216 % 256 :: (List.replicate 36 0 ++ tail) from rfl]
  rw [show List.set ('R'.toNat % 256 :: 'I'.toNat % 256 :: 'F'.toNat % 256 :: 'F'.toNat % 256 :: (36 + n * 2) % 256 :: (36 + n * 2) / 256 % 256 :: (36 + n * 2) / 65536 % 256 :: (36 + n * 2) / 16777216 % 256 :: (List.replicate 36 0 ++ tail)) (8) ('W'.toNat % 256)
        = 'R'.toNat % 256 :: 'I'.toNat % 256 :: 'F'.toNat % 256 :: 'F'.toNat % 256 :: (36 + n * 2) % 256 :: (36 + n * 2) / 256 % 256 :: (36 + n * 2) / 65536 % 256 :: (36 + n * 2) / 16777216 % 256 :: 'W'.toNat % 256 :: (List.replicate 35 0 ++ tail) from rfl]
  rw [show List.set ('R'.toNat % 256 :: 'I'.toNat % 256 :: 'F'.toNat % 256 :: 'F'.toNat % 256 :: (36 + n * 2) % 256 :: (36 + n * 2) / 256 % 256 :: (36 + n * 2) / 65536 % 256 :: (36 + n * 2) / 16777216 % 256 :: 'W'.toNat % 256 :: (List.replicate 35 0 ++ tail)) (8 + 1) ('A'.toNat % 256)
        = 'R'.toNat % 256 :: 'I'.toNat % 256 :: 'F'.toNat % 256 :: 'F'.toNat % 256 :: (36 + n * 2) % 256 :: (36 + n * 2) / 256 % 256 :: (36 + n * 2) / 65536 % 256 :: (36 + n * 2) / 16777216 % 256 :: 'W'.toNat % 256 :: 'A'.toNat % 256 :: (List.replicate 34 0 ++ tail) from rfl]
  rw [show List.set ('R'.toNat % 256 :: 'I'.toNat % 256 :: 'F'.toNat % 256 :: 'F'.toNat % 256 :: (36 + n * 2) % 256 :: (36 + n * 2) / 256 % 256 :: (36 + n * 2) / 65536 % 256 :: (36 + n * 2) / 16777216 % 256 :: 'W'.toNat % 256 :: 'A'.toNat % 256 :: (List.replicate 34 0 ++ tail)) (8 + 1 + 1) ('V'.toNat % 256)
        = 'R'.toNat % 256 :: 'I'.toNat % 256 :: 'F'.toNat % 256 :: 'F'.toNat % 256 :: (36 + n * 2) % 256 :: (36 + n * 2) / 256 % 256 :: (36 + n * 2) / 65536 % 256 :: (36 + n * 2) / 16777216 % 256 :: 'W'.toNat % 256 :: 'A'.toNat % 256 :: 'V'.toNat % 256 :: (List.replicate 33 0 ++ tail) from rfl]
  rw [show List.set ('R'.toNat % 256 :: 'I'.toNat % 256 :: 'F'.toNat % 256 :: 'F'.toNat % 256 :: (36 + n * 2) % 256 :: (36 + n * 2) / 256 % 256 :: (36 + n * 2) / 65536 % 256 :: (36 + n * 2) / 16777216 % 256 :: 'W'.toNat % 256 :: 'A'.toNat % 256 :: 'V'.toNat % 256 :: (List.replicate 33 0 ++ tail)) (8 + 1 + 1 + 1) ('E'.toNat % 256)
        = 'R'.toNat % 256 :: 'I'.toNat % 256 :: 'F'.toNat % 256 :: 'F'.toNat % 256 :: (36 + n * 2) % 256 :: (36 + n * 2) / 256 % 256 :: (36 + n * 2) / 65536 % 256 :: (36 + n * 2) / 16777216 % 256 :: 'W'.toNat % 256 :: 'A'.toNat % 256 :: 'V'.toNat % 256 :: 'E'.toNat % 256 :: (List.replicate 32 0 ++ tail) from rfl]
  rw [show List.set ('R'.toNat % 256 :: 'I'.toNat % 256 :: 'F'.toNat % 256 :: 'F'.toNat % 256 :: (36 + n * 2) % 256 :: (36 + n * 2) / 256 % 256 :: (36 + n * 2) / 65536 % 256 :: (36 + n * 2) / 16777216 % 256 :: 'W'.toNat % 256 :: 'A'.toNat % 256 :: 'V'.toNat % 256 :: 'E'.toNat % 256 :: (List.replicate 32 0 ++ tail)) (12) ('f'.toNat % 256)
        = 'R'.toNat % 256 :: 'I'.toNat % 256 :: 'F'.toNat % 256 :: 'F'.toNat % 256 :: (36 + n * 2) % 256 :: (36 + n * 2) / 256 % 256 :: (36 + n * 2) / 65536 % 256 :: (36 + n * 2) / 16777216 % 256 :: 'W'.toNat % 256 :: 'A'.toNat % 256 :: 'V'.toNat % 256 :: 'E'.toNat % 256 :: 'f'.toNat % 256 :: (List.replicate 31 0 ++ tail) from rfl]
  rw [show List.set ('R'.toNat % 256 :: 'I'.toNat % 256 :: 'F'.toNat % 256 :: 'F'.toNat % 256 :: (36 + n * 2) % 256 :: (36 + n * 2) / 256 % 256 :: (36 + n * 2) / 65536 % 256 :: (36 + n * 2) / 16777216 % 256 :: 'W'.toNat % 256 :: 'A'.toNat % 256 :: 'V'.toNat % 256 :: 'E'.toNat % 256 :: 'f'.toNat % 256 :: (List.replicate 31 0 ++ tail)) (12 + 1) ('m'.toNat % 256)
        = 'R'.toNat % 256 :: 'I'.toNat % 256 :: 'F'.toNat % 256 :: 'F'.toNat % 256 :: (36 + n * 2) % 256 :: (36 + n * 2) / 256 % 256 :: (36 + n * 2) / 65536 % 256 :: (36 + n * 2) / 16777216 % 256 :: 'W'.toNat % 256 :: 'A'.toNat % 256 :: 'V'.toNat % 256 :: 'E'.toNat % 256 :: 'f'.toNat % 256 :: 'm'.toNat % 256 :: (List.replicate 30 0 ++ tail) from rfl]
  rw [show List.set ('R'.toNat % 256 :: 'I'.toNat % 256 :: 'F'.toNat % 256 :: 'F'.toNat % 256 :: (36 + n * 2) % 256 :: (36 + n * 2) / 256 % 256 :: (36 + n * 2) / 65536 % 256 :: (36 + n * 2) / 16777216 % 256 :: 'W'.toNat % 256 :: 'A'.toNat % 256 :: 'V'.toNat % 256 :: 'E'.toNat % 256 :: 'f'.toNat % 256 :: 'm'.toNat % 256 :: (List.replicate 30 0 ++ tail)) (12 + 1 + 1) ('t'.toNat % 256)
        = 'R'.toNat % 256 :: 'I'.toNat % 256 :: 'F'.toNat % 256 :: 'F'.toNat % 256 :: (36 + n * 2) % 256 :: (36 + n * 2) / 256 % 256 :: (36 + n * 2) / 65536 % 256 :: (36 + n * 2) / 16777216 % 256 :: 'W'.toNat % 256 :: 'A'.toNat % 256 :: 'V'.toNat % 256 :: 'E'.toNat % 256 :: 'f'.toNat % 256 :: 'm'.toNat % 256 :: 't'.toNat % 256 :: (List.replicate 29 0 ++ tail) from rfl]
  rw [show List.set ('R'.toNat % 256 :: 'I'.toNat % 256 :: 'F'.toNat % 256 :: 'F'.toNat % 256 :: (36 + n * 2) % 256 :: (36 + n * 2) / 256 % 256 :: (36 + n * 2) / 65536 % 256 :: (36 + n * 2) / 16777216 % 256 :: 'W'.toNat % 256 :: 'A'.toNat % 256 :: 'V'.toNat % 256 :: 'E'.toNat % 256 :: 'f'.toNat % 256 :: 'm'.toNat % 256 :: 't'.toNat % 256 :: (List.replicate 29 0 ++ tail)) (12 + 1 + 1 + 1) (' '.toNat % 256)
        = 'R'.toNat % 256 :: 'I'.toNat % 256 :: 'F'.toNat % 256 :: 'F'.toNat % 256 :: (36 + n * 2) % 256 :: (36 + n * 2) / 256 % 256 :: (36 + n * 2) / 65536 % 256 :: (36 + n * 2) / 16777216 % 256 :: 'W'.toNat % 256 :: 'A'.toNat % 256 :: 'V'.toNat % 256 :: 'E'.toNat % 256 :: 'f'.toNat % 256 :: 'm'.toNat % 256 :: 't'.toNat % 256 :: ' '.toNat % 256 :: (List.replicate 28 0 ++ tail) from rfl]
  rw [show List.set ('R'.toNat % 256 :: 'I'.toNat % 256 :: 'F'.toNat % 256 :: 'F'.toNat % 256 :: (36 + n * 2) % 256 :: (36 + n * 2) / 256 % 256 :: (36 + n * 2) / 65536 % 256 :: (36 + n * 2) / 16777216 % 256 :: 'W'.toNat % 256 :: 'A'.toNat % 256 :: 'V'.toNat % 256 :: 'E'.toNat % 256 :: 'f'.toNat % 256 :: 'm'.toNat % 256 :: 't'.toNat % 256 :: ' '.toNat % 256 :: (List.replicate 28 0 ++ tail)) (16) (16 % 256)
        = 'R'.toNat % 256 :: 'I'.toNat % 256 :: 'F'.toNat % 256 :: 'F'.toNat % 256 :: (36 + n * 2) % 256 :: (36 + n * 2) / 256 % 256 :: (36 + n * 2) / 65536 % 256 :: (36 + n * 2) / 16777216 % 256 :: 'W'.toNat % 256 :: 'A'.toNat % 256 :: 'V'.toNat % 256 :: 'E'.toNat % 256 :: 'f'.toNat % 256 :: 'm'.toNat % 256 :: 't'.toNat % 256 :: ' '.toNat % 256 :: 16 % 256 :: (List.replicate 27 0 ++ tail) from rfl]
  rw [show List.set ('R'.toNat % 256 :: 'I'.toNat % 256 :: 'F'.toNat % 256 :: 'F'.toNat % 256 :: (36 + n * 2) % 256 :: (36 + n * 2) / 256 % 256 :: (36 + n * 2) / 65536 % 256 :: (36 + n * 2) / 16777216 % 256 :: 'W'.toNat % 256 :: 'A'.toNat % 256 :: 'V'.toNat % 256 :: 'E'.toNat % 256 :: 'f'.toNat % 256 :: 'm'.toNat % 256 :: 't'.toNat % 256 :: ' '.toNat % 256 :: 16 % 256 :: (List.replicate 27 0 ++ tail)) (16 + 1) (16 / 256 % 256)
        = 'R'.toNat % 256 :: 'I'.toNat % 256 :: 'F'.toNat % 256 :: 'F'.toNat % 256 :: (36 + n * 2) % 256 :: (36 + n * 2) / 256 % 256 :: (36 + n * 2) / 65536 % 256 :: (36 + n * 2) / 16777216 % 256 :: 'W'.toNat % 256 :: 'A'.toNat % 256 :: 'V'.toNat % 256 :: 'E'.toNat % 256 :: 'f'.toNat % 256 :: 'm'.toNat % 256 :: 't'.toNat % 256 :: ' '.toNat % 256 :: 16 % 256 :: 16 / 256 % 256 :: (List.replicate 26 0 ++ tail) from rfl]
  rw [show List.set ('R'.toNat % 256 :: 'I'.toNat % 256 :: 'F'.toNat % 256 :: 'F'.toNat % 256 :: (36 + n * 2) % 256 :: (36 + n * 2) / 256 % 256 :: (36 + n * 2) / 65536 % 256 :: (36 + n * 2) / 16777216 % 256 :: 'W'.toNat % 256 :: 'A'.toNat % 256 :: 'V'.toNat % 256 :: 'E'.toNat % 256 :: 'f'.toNat % 256 :: 'm'.toNat % 256 :: 't'.toNat % 256 :: ' '.toNat % 256 :: 16 % 256 :: 16 / 256 % 256 :: (List.replicate 26 0 ++ tail)) (16 + 2) (16 / 65536 % 256)
        = 'R'.toNat % 256 :: 'I'.toNat % 256 :: 'F'.toNat % 256 :: 'F'.toNat % 256 :: (36 + n * 2) % 256 :: (36 + n * 2) / 256 % 256 :: (36 + n * 2) / 65536 % 256 :: (36 + n * 2) / 16777216 % 256 :: 'W'.toNat % 256 :: 'A'.toNat % 256 :: 'V'.toNat % 256 :: 'E'.toNat % 256 :: 'f'.toNat % 256 :: 'm'.toNat % 256 :: 't'.toNat % 256 :: ' '.toNat % 256 :: 16 % 256 :: 16 / 256 % 256 :: 16 / 65536 % 256 :: (List.replicate 25 0 ++ tail) from rfl]
  rw [show List.set ('R'.toNat % 256 :: 'I'.toNat % 256 :: 'F'.toNat % 256 :: 'F'.toNat % 256 :: (36 + n * 2) % 256 :: (36 + n * 2) / 256 % 256 :: (36 + n * 2) / 65536 % 256 :: (36 + n * 2) / 16777216 % 256 :: 'W'.toNat % 256 :: 'A'.toNat % 256 :: 'V'.toNat % 256 :: 'E'.toNat % 256 :: 'f'.toNat % 256 :: 'm'.toNat % 256 :: 't'.toNat % 256 :: ' '.toNat % 256 :: 16 % 256 :: 16 / 256 % 256 :: 16 / 65536 % 256 :: (List.replicate 25 0 ++ tail)) (16 + 3) (16 / 16777216 % 256)
        = 'R'.toNat % 256 :: 'I'.toNat % 256 :: 'F'.toNat % 256 :: 'F'.toNat % 256 :: (36 + n * 2) % 256 :: (36 + n * 2) / 256 % 256 :: (36 + n * 2) / 65536 % 256 :: (36 + n * 2) / 16777216 % 256 :: 'W'.toNat % 256 :: 'A'.toNat % 256 :: 'V'.toNat % 256 :: 'E'.toNat % 256 :: 'f'.toNat % 256 :: 'm'.toNat % 256 :: 't'.toNat % 256 :: ' '.toNat % 256 :: 16 % 256 :: 16 / 256 % 256 :: 16 / 65536 % 256 :: 16 / 16777216 % 256 :: (List.replicate 24 0 ++ tail) from rfl]
  rw [show List.set ('R'.toNat % 256 :: 'I'.toNat % 256 :: 'F'.toNat % 256 :: 'F'.toNat % 256 :: (36 + n * 2) % 256 :: (36 + n * 2) / 256 % 256 :: (36 + n * 2) / 65536 % 256 :: (36 + n * 2) / 16777216 % 256 :: 'W'.toNat % 256 :: 'A'.toNat % 256 :: 'V'.toNat % 256 :: 'E'.toNat % 256 :: 'f'.toNat % 256 :: 'm'.toNat % 256 :: 't'.toNat % 256 :: ' '.toNat % 256 :: 16 % 256 :: 16 / 256 % 256 :: 16 / 65536 % 256 :: 16 / 16777216 % 256 :: (List.replicate 24 0 ++ tail)) (20) (1 % 256)
        = 'R'.toNat % 256 :: 'I'.toNat % 256 :: 'F'.toNat % 256 :: 'F'.toNat % 256 :: (36 + n * 2) % 256 :: (36 + n * 2) / 256 % 256 :: (36 + n * 2) / 65536 % 256 :: (36 + n * 2) / 16777216 % 256 :: 'W'.toNat % 256 :: 'A'.toNat % 256 :: 'V'.toNat % 256 :: 'E'.toNat % 256 :: 'f'.toNat % 256 :: 'm'.toNat % 256 :: 't'.toNat % 256 :: ' '.toNat % 256 :: 16 % 256 :: 16 / 256 % 256 :: 16 / 65536 % 256 :: 16 / 16777216 % 256 :: 1 % 256 :: (List.replicate 23 0 ++ tail) from rfl]
  rw [show List.set ('R'.toNat % 256 :: 'I'.toNat % 256 :: 'F'.toNat % 256 :: 'F'.toNat % 256 :: (36 + n * 2) % 256 :: (36 + n * 2) / 256 % 256 :: (36 + n * 2) / 65536 % 256 :: (36 + n * 2) / 16777216 % 256 :: 'W'.toNat % 256 :: 'A'.toNat % 256 :: 'V'.toNat % 256 :: 'E'.toNat % 256 :: 'f'.toNat % 256 :: 'm'.toNat % 256 :: 't'.toNat % 256 :: ' '.toNat % 256 :: 16 % 256 :: 16 / 256 % 256 :: 16 / 65536 % 256 :: 16 / 16777216 % 256 :: 1 % 256 :: (List.replicate 23 0 ++ tail)) (20 + 1) (1 / 256 % 256)
        = 'R'.toNat % 256 :: 'I'.toNat % 256 :: 'F'.toNat % 256 :: 'F'.toNat % 256 :: (36 + n * 2) % 256 :: (36 + n * 2) / 256 % 256 :: (36 + n * 2) / 65536 % 256 :: (36 + n * 2) / 16777216 % 256 :: 'W'.toNat % 256 :: 'A'.toNat % 256 :: 'V'.toNat % 256 :: 'E'.toNat % 256 :: 'f'.toNat % 256 :: 'm'.toNat % 256 :: 't'.toNat % 256 :: ' '.toNat % 256 :: 16 % 256 :: 16 / 256 % 256 :: 16 / 65536 % 256 :: 16 / 16777216 % 256 :: 1 % 256 :: 1 / 256 % 256 :: (List.replicate 22 0 ++ tail) from rfl]
  rw [show List.set ('R'.toNat % 256 :: 'I'.toNat % 256 :: 'F'.toNat % 256 :: 'F'.toNat % 256 :: (36 + n * 2) % 256 :: (36 + n * 2) / 256 % 256 :: (36 + n * 2) / 65536 % 256 :: (36 + n * 2) / 16777216 % 256 :: 'W'.toNat % 256 :: 'A'.toNat % 256 :: 'V'.toNat % 256 :: 'E'.toNat % 256 :: 'f'.toNat % 256 :: 'm'.toNat % 256 :: 't'.toNat % 256 :: ' '.toNat % 256 :: 16 % 256 :: 16 / 256 % 256 :: 16 / 65536 % 256 :: 16 / 16777216 % 256 :: 1 % 256 :: 1 / 256 % 256 :: (List.replicate 22 0 ++ tail)) (22) (1 % 256)
        = 'R'.toNat % 256 :: 'I'.toNat % 256 :: 'F'.toNat % 256 :: 'F'.toNat % 256 :: (36 + n * 2) % 256 :: (36 + n * 2) / 256 % 256 :: (36 + n * 2) / 65536 % 256 :: (36 + n * 2) / 16777216 % 256 :: 'W'.toNat % 256 :: 'A'.toNat % 256 :: 'V'.toNat % 256 :: 'E'.toNat % 256 :: 'f'.toNat % 256 :: 'm'.toNat % 256 :: 't'.toNat % 256 :: ' '.toNat % 256 :: 16 % 256 :: 16 / 256 % 256 :: 16 / 65536 % 256 :: 16 / 16777216 % 256 :: 1 % 256 :: 1 / 256 % 256 :: 1 % 256 :: (List.replicate 21 0 ++ tail) from rfl]
  rw [show List.set ('R'.toNat % 256 :: 'I'.toNat % 256 :: 'F'.toNat % 256 :: 'F'.toNat % 256 :: (36 + n * 2) % 256 :: (36 + n * 2) / 256 % 256 :: (36 + n * 2) / 65536 % 256 :: (36 + n * 2) / 16777216 % 256 :: 'W'.toNat % 256 :: 'A'.toNat % 256 :: 'V'.toNat % 256 :: 'E'.toNat % 256 :: 'f'.toNat % 256 :: 'm'.toNat % 256 :: 't'.toNat % 256 :: ' '.toNat % 256 :: 16 % 256 :: 16 / 256 % 256 :: 16 / 65536 % 256 :: 16 / 16777216 % 256 :: 1 % 256 :: 1 / 256 % 256 :: 1 % 256 :: (List.replicate 21 0 ++ tail)) (22 + 1) (1 / 256 % 256)
        = 'R'.toNat % 256 :: 'I'.toNat % 256 :: 'F'.toNat % 256 :: 'F'.toNat % 256 :: (36 + n * 2) % 256 :: (36 + n * 2) / 256 % 256 :: (36 + n * 2) / 65536 % 256 :: (36 + n * 2) / 16777216 % 256 :: 'W'.toNat % 256 :: 'A'.toNat % 256 :: 'V'.toNat % 256 :: 'E'.toNat % 256 :: 'f'.toNat % 256 :: 'm'.toNat % 256 :: 't'.toNat % 256 :: ' '.toNat % 256 :: 16 % 256 :: 16 / 256 % 256 :: 16 / 65536 % 256 :: 16 / 16777216 % 256 :: 1 % 256 :: 1 / 256 % 256 :: 1 % 256 :: 1 / 256 % 256 :: (List.replicate 20 0 ++ tail) from rfl]
  rw [show List.set ('R'.toNat % 256 :: 'I'.toNat % 256 :: 'F'.toNat % 256 :: 'F'.toNat % 256 :: (36 + n * 2) % 256 :: (36 + n * 2) / 256 % 256 :: (36 + n * 2) / 65536 % 256 :: (36 + n * 2) / 16777216 % 256 :: 'W'.toNat % 256 :: 'A'.toNat % 256 :: 'V'.toNat % 256 :: 'E'.toNat % 256 :: 'f'.toNat % 256 :: 'm'.toNat % 256 :: 't'.toNat % 256 :: ' '.toNat % 256 :: 16 % 256 :: 16 / 256 % 256 :: 16 / 65536 % 256 :: 16 / 16777216 % 256 :: 1 % 256 :: 1 / 256 % 256 :: 1 % 256 :: 1 / 256 % 256 :: (List.replicate 20 0 ++ tail)) (24) (r % 256)
        = 'R'.toNat % 256 :: 'I'.toNat % 256 :: 'F'.toNat % 256 :: 'F'.toNat % 256 :: (36 + n * 2) % 256 :: (36 + n * 2) / 256 % 256 :: (36 + n * 2) / 65536 % 256 :: (36 + n * 2) / 16777216 % 256 :: 'W'.toNat % 256 :: 'A'.toNat % 256 :: 'V'.toNat % 256 :: 'E'.toNat % 256 :: 'f'.toNat % 256 :: 'm'.toNat % 256 :: 't'.toNat % 256 :: ' '.toNat % 256 :: 16 % 256 :: 16 / 256 % 256 :: 16 / 65536 % 256 :: 16 / 16777216 % 256 :: 1 % 256 :: 1 / 256 % 256 :: 1 % 256 :: 1 / 256 % 256 :: r % 256 :: (List.replicate 19 0 ++ tail) from rfl]
  rw [show List.set ('R'.toNat % 256 :: 'I'.toNat % 256 :: 'F'.toNat % 256 :: 'F'.toNat % 256 :: (36 + n * 2) % 256 :: (36 + n * 2) / 256 % 256 :: (36 + n * 2) / 65536 % 256 :: (36 + n * 2) / 16777216 % 256 :: 'W'.toNat % 256 :: 'A'.toNat % 256 :: 'V'.toNat % 256 :: 'E'.toNat % 256 :: 'f'.toNat % 256 :: 'm'.toNat % 256 :: 't'.toNat % 256 :: ' '.toNat % 256 :: 16 % 256 :: 16 / 256 % 256 :: 16 / 65536 % 256 :: 16 / 16777216 % 256 :: 1 % 256 :: 1 / 256 % 256 :: 1 % 256 :: 1 / 256 % 256 :: r % 256 :: (List.replicate 19 0 ++ tail)) (24 + 1) (r / 256 % 256)
        = 'R'.toNat % 256 :: 'I'.toNat % 256 :: 'F'.toNat % 256 :: 'F'.toNat % 256 :: (36 + n * 2) % 256 :: (36 + n * 2) / 256 % 256 :: (36 + n * 2) / 65536 % 256 :: (36 + n * 2) / 16777216 % 256 :: 'W'.toNat % 256 :: 'A'.toNat % 256 :: 'V'.toNat % 256 :: 'E'.toNat % 256 :: 'f'.toNat % 256 :: 'm'.toNat % 256 :: 't'.toNat % 256 :: ' '.toNat % 256 :: 16 % 256 :: 16 / 256 % 256 :: 16 / 65536 % 256 :: 16 / 16777216 % 256 :: 1 % 256 :: 1 / 256 % 256 :: 1 % 256 :: 1 / 256 % 256 :: r % 256 :: r / 256 % 256 :: (List.replicate 18 0 ++ tail) from rfl]
  rw [show List.set ('R'.toNat % 256 :: 'I'.toNat % 256 :: 'F'.toNat % 256 :: 'F'.toNat % 256 :: (36 + n * 2) % 256 :: (36 + n * 2) / 256 % 256 :: (36 + n * 2) / 65536 % 256 :: (36 + n * 2) / 16777216 % 256 :: 'W'.toNat % 256 :: 'A'.toNat % 256 :: 'V'.toNat % 256 :: 'E'.toNat % 256 :: 'f'.toNat % 256 :: 'm'.toNat % 256 :: 't'.toNat % 256 :: ' '.toNat % 256 :: 16 % 256 :: 16 / 256 % 256 :: 16 / 65536 % 256 :: 16 / 16777216 % 256 :: 1 % 256 :: 1 / 256 % 256 :: 1 % 256 :: 1 / 256 % 256 :: r % 256 :: r / 256 % 256 :: (List.replicate 18 0 ++ tail)) (24 + 2) (r / 65536 % 256)
        = 'R'.toNat % 256 :: 'I'.toNat % 256 :: 'F'.toNat % 256 :: 'F'.toNat % 256 :: (36 + n * 2) % 256 :: (36 + n * 2) / 256 % 256 :: (36 + n * 2) / 65536 % 256 :: (36 + n * 2) / 16777216 % 256 :: 'W'.toNat % 256 :: 'A'.toNat % 256 :: 'V'.toNat % 256 :: 'E'.toNat % 256 :: 'f'.toNat % 256 :: 'm'.toNat % 256 :: 't'.toNat % 256 :: ' '.toNat % 256 :: 16 % 256 :: 16 / 256 % 256 :: 16 / 65536 % 256 :: 16 / 16777216 % 256 :: 1 % 256 :: 1 / 256 % 256 :: 1 % 256 :: 1 / 256 % 256 :: r % 256 :: r / 256 % 256 :: r / 65536 % 256 :: (List.replicate 17 0 ++ tail) from rfl]
  rw [show List.set ('R'.toNat % 256 :: 'I'.toNat % 256 :: 'F'.toNat % 256 :: 'F'.toNat % 256 :: (36 + n * 2) % 256 :: (36 + n * 2) / 256 % 256 :: (36 + n * 2) / 65536 % 256 :: (36 + n * 2) / 16777216 % 256 :: 'W'.toNat % 256 :: 'A'.toNat % 256 :: 'V'.toNat % 256 :: 'E'.toNat % 256 :: 'f'.toNat % 256 :: 'm'.toNat % 256 :: 't'.toNat % 256 :: ' '.toNat % 256 :: 16 % 256 :: 16 / 256 % 256 :: 16 / 65536 % 256 :: 16 / 16777216 % 256 :: 1 % 256 :: 1 / 256 % 256 :: 1 % 256 :: 1 / 256 % 256 :: r % 256 :: r / 256 % 256 :: r / 65536 % 256 :: (List.replicate 17 0 ++ tail)) (24 + 3) (r / 16777216 % 256)
        = 'R'.toNat % 256 :: 'I'.toNat % 256 :: 'F'.toNat % 256 :: 'F'.toNat % 256 :: (36 + n * 2) % 256 :: (36 + n * 2) / 256 % 256 :: (36 + n * 2) / 65536 % 256 :: (36 + n * 2) / 16777216 % 256 :: 'W'.toNat % 256 :: 'A'.toNat % 256 :: 'V'.toNat % 256 :: 'E'.toNat % 256 :: 'f'.toNat % 256 :: 'm'.toNat % 256 :: 't'.toNat % 256 :: ' '.toNat % 256 :: 16 % 256 :: 16 / 256 % 256 :: 16 / 65536 % 256 :: 16 / 16777216 % 256 :: 1 % 256 :: 1 / 256 % 256 :: 1 % 256 :: 1 / 256 % 256 :: r % 256 :: r / 256 % 256 :: r / 65536 % 256 :: r / 16777216 % 256 :: (List.replicate 16 0 ++ tail) from rfl]
  rw [show List.set ('R'.toNat % 256 :: 'I'.toNat % 256 :: 'F'.toNat % 256 :: 'F'.toNat % 256 :: (36 + n * 2) % 256 :: (36 + n * 2) / 256 % 256 :: (36 + n * 2) / 65536 % 256 :: (36 + n * 2) / 16777216 % 256 :: 'W'.toNat % 256 :: 'A'.toNat % 256 :: 'V'.toNat % 256 :: 'E'.toNat % 256 :: 'f'.toNat % 256 :: 'm'.toNat % 256 :: 't'.toNat % 256 :: ' '.toNat % 256 :: 16 % 256 :: 16 / 256 % 256 :: 16 / 65536 % 256 :: 16 / 16777216 % 256 :: 1 % 256 :: 1 / 256 % 256 :: 1 % 256 :: 1 / 256 % 256 :: r % 256 :: r / 256 % 256 :: r / 65536 % 256 :: r / 16777216 % 256 :: (List.replicate 16 0 ++ tail)) (28) ((r * 2) % 256)
        = 'R'.toNat % 256 :: 'I'.toNat % 256 :: 'F'.toNat % 256 :: 'F'.toNat % 256 :: (36 + n * 2) % 256 :: (36 + n * 2) / 256 % 256 :: (36 + n * 2) / 65536 % 256 :: (36 + n * 2) / 16777216 % 256 :: 'W'.toNat % 256 :: 'A'.toNat % 256 :: 'V'.toNat % 256 :: 'E'.toNat % 256 :: 'f'.toNat % 256 :: 'm'.toNat % 256 :: 't'.toNat % 256 :: ' '.toNat % 256 :: 16 % 256 :: 16 / 256 % 256 :: 16 / 65536 % 256 :: 16 / 16777216 % 256 :: 1 % 256 :: 1 / 256 % 256 :: 1 % 256 :: 1 / 256 % 256 :: r % 256 :: r / 256 % 256 :: r / 65536 % 256 :: r / 16777216 % 256 :: (r * 2) % 256 :: (List.replicate 15 0 ++ tail) from rfl]
  rw [show List.set ('R'.toNat % 256 :: 'I'.toNat % 256 :: 'F'.toNat % 256 :: 'F'.toNat % 256 :: (36 + n * 2) % 256 :: (36 + n * 2) / 256 % 256 :: (36 + n * 2) / 65536 % 256 :: (36 + n * 2) / 16777216 % 256 :: 'W'.toNat % 256 :: 'A'.toNat % 256 :: 'V'.toNat % 256 :: 'E'.toNat % 256 :: 'f'.toNat % 256 :: 'm'.toNat % 256 :: 't'.toNat % 256 :: ' '.toNat % 256 :: 16 % 256 :: 16 / 256 % 256 :: 16 / 65536 % 256 :: 16 / 16777216 % 256 :: 1 % 256 :: 1 / 256 % 256 :: 1 % 256 :: 1 / 256 % 256 :: r % 256 :: r / 256 % 256 :: r / 65536 % 256 :: r / 16777216 % 256 :: (r * 2) % 256 :: (List.replicate 15 0 ++ tail)) (28 + 1) ((r * 2) / 256 % 256)
        = 'R'.toNat % 256 :: 'I'.toNat % 256 :: 'F'.toNat % 256 :: 'F'.toNat % 256 :: (36 + n * 2) % 256 :: (36 + n * 2) / 256 % 256 :: (36 + n * 2) / 65536 % 256 :: (36 + n * 2) / 16777216 % 256 :: 'W'.toNat % 256 :: 'A'.toNat % 256 :: 'V'.toNat % 256 :: 'E'.toNat % 256 :: 'f'.toNat % 256 :: 'm'.toNat % 256 :: 't'.toNat % 256 :: ' '.toNat % 256 :: 16 % 256 :: 16 / 256 % 256 :: 16 / 65536 % 256 :: 16 / 16777216 % 256 :: 1 % 256 :: 1 / 256 % 256 :: 1 % 256 :: 1 / 256 % 256 :: r % 256 :: r / 256 % 256 :: r / 65536 % 256 :: r / 16777216 % 256 :: (r * 2) % 256 :: (r * 2) / 256 % 256 :: (List.replicate 14 0 ++ tail) from rfl]
  rw [show List.set ('R'.toNat % 256 :: 'I'.toNat % 256 :: 'F'.toNat % 256 :: 'F'.toNat % 256 :: (36 + n * 2) % 256 :: (36 + n * 2) / 256 % 256 :: (36 + n * 2) / 65536 % 256 :: (36 + n * 2) / 16777216 % 256 :: 'W'.toNat % 256 :: 'A'.toNat % 256 :: 'V'.toNat % 256 :: 'E'.toNat % 256 :: 'f'.toNat % 256 :: 'm'.toNat % 256 :: 't'.toNat % 256 :: ' '.toNat % 256 :: 16 % 256 :: 16 / 256 % 256 :: 16 / 65536 % 256 :: 16 / 16777216 % 256 :: 1 % 256 :: 1 / 256 % 256 :: 1 % 256 :: 1 / 256 % 256 :: r % 256 :: r / 256 % 256 :: r / 65536 % 256 :: r / 16777216 % 256 :: (r * 2) % 256 :: (r * 2) / 256 % 256 :: (List.replicate 14 0 ++ tail)) (28 + 2) ((r * 2) / 65536 % 256)
        = 'R'.toNat % 256 :: 'I'.toNat % 256 :: 'F'.toNat % 256 :: 'F'.toNat % 256 :: (36 + n * 2) % 256 :: (36 + n * 2) / 256 % 256 :: (36 + n * 2) / 65536 % 256 :: (36 + n * 2) / 16777216 % 256 :: 'W'.toNat % 256 :: 'A'.toNat % 256 :: 'V'.toNat % 256 :: 'E'.toNat % 256 :: 'f'.toNat % 256 :: 'm'.toNat % 256 :: 't'.toNat % 256 :: ' '.toNat % 256 :: 16 % 256 :: 16 / 256 % 256 :: 16 / 65536 % 256 :: 16 / 16777216 % 256 :: 1 % 256 :: 1 / 256 % 256 :: 1 % 256 :: 1 / 256 % 256 :: r % 256 :: r / 256 % 256 :: r / 65536 % 256 :: r / 16777216 % 256 :: (r * 2) % 256 :: (r * 2) / 256 % 256 :: (r * 2) / 65536 % 256 :: (List.replicate 13 0 ++ tail) from rfl]
  rw [show List.set ('R'.toNat % 256 :: 'I'.toNat % 256 :: 'F'.toNat % 256 :: 'F'.toNat % 256 :: (36 + n * 2) % 256 :: (36 + n * 2) / 256 % 256 :: (36 + n * 2) / 65536 % 256 :: (36 + n * 2) / 16777216 % 256 :: 'W'.toNat % 256 :: 'A'.toNat % 256 :: 'V'.toNat % 256 :: 'E'.toNat % 256 :: 'f'.toNat % 256 :: 'm'.toNat % 256 :: 't'.toNat % 256 :: ' '.toNat % 256 :: 16 % 256 :: 16 / 256 % 256 :: 16 / 65536 % 256 :: 16 / 16777216 % 256 :: 1 % 256 :: 1 / 256 % 256 :: 1 % 256 :: 1 / 256 % 256 :: r % 256 :: r / 256 % 256 :: r / 65536 % 256 :: r / 16777216 % 256 :: (r * 2) % 256 :: (r * 2) / 256 % 256 :: (r * 2) / 65536 % 256 :: (List.replicate 13 0 ++ tail)) (28 + 3) ((r * 2) / 16777216 % 256)
        = 'R'.toNat % 256 :: 'I'.toNat % 256 :: 'F'.toNat % 256 :: 'F'.toNat % 256 :: (36 + n * 2) % 256 :: (36 + n * 2) / 256 % 256 :: (36 + n * 2) / 65536 % 256 :: (36 + n * 2) / 16777216 % 256 :: 'W'.toNat % 256 :: 'A'.toNat % 256 :: 'V'.toNat % 256 :: 'E'.toNat % 256 :: 'f'.toNat % 256 :: 'm'.toNat % 256 :: 't'.toNat % 256 :: ' '.toNat % 256 :: 16 % 256 :: 16 / 256 % 256 :: 16 / 65536 % 256 :: 16 / 16777216 % 256 :: 1 % 256 :: 1 / 256 % 256 :: 1 % 256 :: 1 / 256 % 256 :: r % 256 :: r / 256 % 256 :: r / 65536 % 256 :: r / 16777216 % 256 :: (r * 2) % 256 :: (r * 2) / 256 % 256 :: (r * 2) / 65536 % 256 :: (r * 2) / 16777216 % 256 :: (List.replicate 12 0 ++ tail) from rfl]
  rw [show List.set ('R'.toNat % 256 :: 'I'.toNat % 256 :: 'F'.toNat % 256 :: 'F'.toNat % 256 :: (36 + n * 2) % 256 :: (36 + n * 2) / 256 % 256 :: (36 + n * 2) / 65536 % 256 :: (36 + n * 2) / 16777216 % 256 :: 'W'.toNat % 256 :: 'A'.toNat % 256 :: 'V'.toNat % 256 :: 'E'.toNat % 256 :: 'f'.toNat % 256 :: 'm'.toNat % 256 :: 't'.toNat % 256 :: ' '.toNat % 256 :: 16 % 256 :: 16 / 256 % 256 :: 16 / 65536 % 256 :: 16 / 16777216 % 256 :: 1 % 256 :: 1 / 256 % 256 :: 1 % 256 :: 1 / 256 % 256 :: r % 256 :: r / 256 % 256 :: r / 65536 % 256 :: r / 16777216 % 256 :: (r * 2) % 256 :: (r * 2) / 256 % 256 :: (r * 2) / 65536 % 256 :: (r * 2) / 16777216 % 256 :: (List.replicate 12 0 ++ tail)) (32) (2 % 256)
        = 'R'.toNat % 256 :: 'I'.toNat % 256 :: 'F'.toNat % 256 :: 'F'.toNat % 256 :: (36 + n * 2) % 256 :: (36 + n * 2) / 256 % 256 :: (36 + n * 2) / 65536 % 256 :: (36 + n * 2) / 16777216 % 256 :: 'W'.toNat % 256 :: 'A'.toNat % 256 :: 'V'.toNat % 256 :: 'E'.toNat % 256 :: 'f'.toNat % 256 :: 'm'.toNat % 256 :: 't'.toNat % 256 :: ' '.toNat % 256 :: 16 % 256 :: 16 / 256 % 256 :: 16 / 65536 % 256 :: 16 / 16777216 % 256 :: 1 % 256 :: 1 / 256 % 256 :: 1 % 256 :: 1 / 256 % 256 :: r % 256 :: r / 256 % 256 :: r / 65536 % 256 :: r / 16777216 % 256 :: (r * 2) % 256 :: (r * 2) / 256 % 256 :: (r * 2) / 65536 % 256 :: (r * 2) / 16777216 % 256 :: 2 % 256 :: (List.replicate 11 0 ++ tail) from rfl]
  rw [show List.set ('R'.toNat % 256 :: 'I'.toNat % 256 :: 'F'.toNat % 256 :: 'F'.toNat % 256 :: (36 + n * 2) % 256 :: (36 + n * 2) / 256 % 256 :: (36 + n * 2) / 65536 % 256 :: (36 + n * 2) / 16777216 % 256 :: 'W'.toNat % 256 :: 'A'.toNat % 256 :: 'V'.toNat % 256 :: 'E'.toNat % 256 :: 'f'.toNat % 256 :: 'm'.toNat % 256 :: 't'.toNat % 256 :: ' '.toNat % 256 :: 16 % 256 :: 16 / 256 % 256 :: 16 / 65536 % 256 :: 16 / 16777216 % 256 :: 1 % 256 :: 1 / 256 % 256 :: 1 % 256 :: 1 / 256 % 256 :: r % 256 :: r / 256 % 256 :: r / 65536 % 256 :: r / 16777216 % 256 :: (r * 2) % 256 :: (r * 2) / 256 % 256 :: (r * 2) / 65536 % 256 :: (r * 2) / 16777216 % 256 :: 2 % 256 :: (List.replicate 11 0 ++ tail)) (32 + 1) (2 / 256 % 256)
        = 'R'.toNat % 256 :: 'I'.toNat % 256 :: 'F'.toNat % 256 :: 'F'.toNat % 256 :: (36 + n * 2) % 256 :: (36 + n * 2) / 256 % 256 :: (36 + n * 2) / 65536 % 256 :: (36 + n * 2) / 16777216 % 256 :: 'W'.toNat % 256 :: 'A'.toNat % 256 :: 'V'.toNat % 256 :: 'E'.toNat % 256 :: 'f'.toNat % 256 :: 'm'.toNat % 256 :: 't'.toNat % 256 :: ' '.toNat % 256 :: 16 % 256 :: 16 / 256 % 256 :: 16 / 65536 % 256 :: 16 / 16777216 % 256 :: 1 % 256 :: 1 / 256 % 256 :: 1 % 256 :: 1 / 256 % 256 :: r % 256 :: r / 256 % 256 :: r / 65536 % 256 :: r / 16777216 % 256 :: (r * 2) % 256 :: (r * 2) / 256 % 256 :: (r * 2) / 65536 % 256 :: (r * 2) / 16777216 % 256 :: 2 % 256 :: 2 / 256 % 256 :: (List.replicate 10 0 ++ tail) from rfl]
  rw [show List.set ('R'.toNat % 256 :: 'I'.toNat % 256 :: 'F'.toNat % 256 :: 'F'.toNat % 256 :: (36 + n * 2) % 256 :: (36 + n * 2) / 256 % 256 :: (36 + n * 2) / 65536 % 256 :: (36 + n * 2) / 16777216 % 256 :: 'W'.toNat % 256 :: 'A'.toNat % 256 :: 'V'.toNat % 256 :: 'E'.toNat % 256 :: 'f'.toNat % 256 :: 'm'.toNat % 256 :: 't'.toNat % 256 :: ' '.toNat % 256 :: 16 % 256 :: 16 / 256 % 256 :: 16 / 65536 % 256 :: 16 / 16777216 % 256 :: 1 % 256 :: 1 / 256 % 256 :: 1 % 256 :: 1 / 256 % 256 :: r % 256 :: r / 256 % 256 :: r / 65536 % 256 :: r / 16777216 % 256 :: (r * 2) % 256 :: (r * 2) / 256 % 256 :: (r * 2) / 65536 % 256 :: (r * 2) / 16777216 % 256 :: 2 % 256 :: 2 / 256 % 256 :: (List.replicate 10 0 ++ tail)) (34) (16 % 256)
        = 'R'.toNat % 256 :: 'I'.toNat % 256 :: 'F'.toNat % 256 :: 'F'.toNat % 256 :: (36 + n * 2) % 256 :: (36 + n * 2) / 256 % 256 :: (36 + n * 2) / 65536 % 256 :: (36 + n * 2) / 16777216 % 256 :: 'W'.toNat % 256 :: 'A'.toNat % 256 :: 'V'.toNat % 256 :: 'E'.toNat % 256 :: 'f'.toNat % 256 :: 'm'.toNat % 256 :: 't'.toNat % 256 :: ' '.toNat % 256 :: 16 % 256 :: 16 / 256 % 256 :: 16 / 65536 % 256 :: 16 / 16777216 % 256 :: 1 % 256 :: 1 / 256 % 256 :: 1 % 256 :: 1 / 256 % 256 :: r % 256 :: r / 256 % 256 :: r / 65536 % 256 :: r / 16777216 % 256 :: (r * 2) % 256 :: (r * 2) / 256 % 256 :: (r * 2) / 65536 % 256 :: (r * 2) / 16777216 % 256 :: 2 % 256 :: 2 / 256 % 256 :: 16 % 256 :: (List.replicate 9 0 ++ tail) from rfl]
  rw [show List.set ('R'.toNat % 256 :: 'I'.toNat % 256 :: 'F'.toNat % 256 :: 'F'.toNat % 256 :: (36 + n * 2) % 256 :: (36 + n * 2) / 256 % 256 :: (36 + n * 2) / 65536 % 256 :: (36 + n * 2) / 16777216 % 256 :: 'W'.toNat % 256 :: 'A'.toNat % 256 :: 'V'.toNat % 256 :: 'E'.toNat % 256 :: 'f'.toNat % 256 :: 'm'.toNat % 256 :: 't'.toNat % 256 :: ' '.toNat % 256 :: 16 % 256 :: 16 / 256 % 256 :: 16 / 65536 % 256 :: 16 / 16777216 % 256 :: 1 % 256 :: 1 / 256 % 256 :: 1 % 256 :: 1 / 256 % 256 :: r % 256 :: r / 256 % 256 :: r / 65536 % 256 :: r / 16777216 % 256 :: (r * 2) % 256 :: (r * 2) / 256 % 256 :: (r * 2) / 65536 % 256 :: (r * 2) / 16777216 % 256 :: 2 % 256 :: 2 / 256 % 256 :: 16 % 256 :: (List.replicate 9 0 ++ tail)) (34 + 1) (16 / 256 % 256)
        = 'R'.toNat % 256 :: 'I'.toNat % 256 :: 'F'.toNat % 256 :: 'F'.toNat % 256 :: (36 + n * 2) % 256 :: (36 + n * 2) / 256 % 256 :: (36 + n * 2) / 65536 % 256 :: (36 + n * 2) / 16777216 % 256 :: 'W'.toNat % 256 :: 'A'.toNat % 256 :: 'V'.toNat % 256 :: 'E'.toNat % 256 :: 'f'.toNat % 256 :: 'm'.toNat % 256 :: 't'.toNat % 256 :: ' '.toNat % 256 :: 16 % 256 :: 16 / 256 % 256 :: 16 / 65536 % 256 :: 16 / 16777216 % 256 :: 1 % 256 :: 1 / 256 % 256 :: 1 % 256 :: 1 / 256 % 256 :: r % 256 :: r / 256 % 256 :: r / 65536 % 256 :: r / 16777216 % 256 :: (r * 2) % 256 :: (r * 2) / 256 % 256 :: (r * 2) / 65536 % 256 :: (r * 2) / 16777216 % 256 :: 2 % 256 :: 2 / 256 % 256 :: 16 % 256 :: 16 / 256 % 256 :: (List.replicate 8 0 ++ tail) from rfl]
  rw [show List.set ('R'.toNat % 256 :: 'I'.toNat % 256 :: 'F'.toNat % 256 :: 'F'.toNat % 256 :: (36 + n * 2) % 256 :: (36 + n * 2) / 256 % 256 :: (36 + n * 2) / 65536 % 256 :: (36 + n * 2) / 16777216 % 256 :: 'W'.toNat % 256 :: 'A'.toNat % 256 :: 'V'.toNat % 256 :: 'E'.toNat % 256 :: 'f'.toNat % 256 :: 'm'.toNat % 256 :: 't'.toNat % 256 :: ' '.toNat % 256 :: 16 % 256 :: 16 / 256 % 256 :: 16 / 65536 % 256 :: 16 / 16777216 % 256 :: 1 % 256 :: 1 / 256 % 256 :: 1 % 256 :: 1 / 256 % 256 :: r % 256 :: r / 256 % 256 :: r / 65536 % 256 :: r / 16777216 % 256 :: (r * 2) % 256 :: (r * 2) / 256 % 256 :: (r * 2) / 65536 % 256 :: (r * 2) / 16777216 % 256 :: 2 % 256 :: 2 / 256 % 256 :: 16 % 256 :: 16 / 256 % 256 :: (List.replicate 8 0 ++ tail)) (36) ('d'.toNat % 256)
        = 'R'.toNat % 256 :: 'I'.toNat % 256 :: 'F'.toNat % 256 :: 'F'.toNat % 256 :: (36 + n * 2) % 256 :: (36 + n * 2) / 256 % 256 :: (36 + n * 2) / 65536 % 256 :: (36 + n * 2) / 16777216 % 256 :: 'W'.toNat % 256 :: 'A'.toNat % 256 :: 'V'.toNat % 256 :: 'E'.toNat % 256 :: 'f'.toNat % 256 :: 'm'.toNat % 256 :: 't'.toNat % 256 :: ' '.toNat % 256 :: 16 % 256 :: 16 / 256 % 256 :: 16 / 65536 % 256 :: 16 / 16777216 % 256 :: 1 % 256 :: 1 / 256 % 256 :: 1 % 256 :: 1 / 256 % 256 :: r % 256 :: r / 256 % 256 :: r / 65536 % 256 :: r / 16777216 % 256 :: (r * 2) % 256 :: (r * 2) / 256 % 256 :: (r * 2) / 65536 % 256 :: (r * 2) / 16777216 % 256 :: 2 % 256 :: 2 / 256 % 256 :: 16 % 256 :: 16 / 256 % 256 :: 'd'.toNat % 256 :: (List.replicate 7 0 ++ tail) from rfl]
  rw [show List.set ('R'.toNat % 256 :: 'I'.toNat % 256 :: 'F'.toNat % 256 :: 'F'.toNat % 256 :: (36 + n * 2) % 256 :: (36 + n * 2) / 256 % 256 :: (36 + n * 2) / 65536 % 256 :: (36 + n * 2) / 16777216 % 256 :: 'W'.toNat % 256 :: 'A'.toNat % 256 :: 'V'.toNat % 256 :: 'E'.toNat % 256 :: 'f'.toNat % 256 :: 'm'.toNat % 256 :: 't'.toNat % 256 :: ' '.toNat % 256 :: 16 % 256 :: 16 / 256 % 256 :: 16 / 65536 % 256 :: 16 / 16777216 % 256 :: 1 % 256 :: 1 / 256 % 256 :: 1 % 256 :: 1 / 256 % 256 :: r % 256 :: r / 256 % 256 :: r / 65536 % 256 :: r / 16777216 % 256 :: (r * 2) % 256 :: (r * 2) / 256 % 256 :: (r * 2) / 65536 % 256 :: (r * 2) / 16777216 % 256 :: 2 % 256 :: 2 / 256 % 256 :: 16 % 256 :: 16 / 256 % 256 :: 'd'.toNat % 256 :: (List.replicate 7 0 ++ tail)) (36 + 1) ('a'.toNat % 256)
        = 'R'.toNat % 256 :: 'I'.toNat % 256 :: 'F'.toNat % 256 :: 'F'.toNat % 256 :: (36 + n * 2) % 256 :: (36 + n * 2) / 256 % 256 :: (36 + n * 2) / 65536 % 256 :: (36 + n * 2) / 16777216 % 256 :: 'W'.toNat % 256 :: 'A'.toNat % 256 :: 'V'.toNat % 256 :: 'E'.toNat % 256 :: 'f'.toNat % 256 :: 'm'.toNat % 256 :: 't'.toNat % 256 :: ' '.toNat % 256 :: 16 % 256 :: 16 / 256 % 256 :: 16 / 65536 % 256 :: 16 / 16777216 % 256 :: 1 % 256 :: 1 / 256 % 256 :: 1 % 256 :: 1 / 256 % 256 :: r % 256 :: r / 256 % 256 :: r / 65536 % 256 :: r / 16777216 % 256 :: (r * 2) % 256 :: (r * 2) / 256 % 256 :: (r * 2) / 65536 % 256 :: (r * 2) / 16777216 % 256 :: 2 % 256 :: 2 / 256 % 256 :: 16 % 256 :: 16 / 256 % 256 :: 'd'.toNat % 256 :: 'a'.toNat % 256 :: (List.replicate 6 0 ++ tail) from rfl]
  rw [show List.set ('R'.toNat % 256 :: 'I'.toNat % 256 :: 'F'.toNat % 256 :: 'F'.toNat % 256 :: (36 + n * 2) % 256 :: (36 + n * 2) / 256 % 256 :: (36 + n * 2) / 65536 % 256 :: (36 + n * 2) / 16777216 % 256 :: 'W'.toNat % 256 :: 'A'.toNat % 256 :: 'V'.toNat % 256 :: 'E'.toNat % 256 :: 'f'.toNat % 256 :: 'm'.toNat % 256 :: 't'.toNat % 256 :: ' '.toNat % 256 :: 16 % 256 :: 16 / 256 % 256 :: 16 / 65536 % 256 :: 16 / 16777216 % 256 :: 1 % 256 :: 1 / 256 % 256 :: 1 % 256 :: 1 / 256 % 256 :: r % 256 :: r / 256 % 256 :: r / 65536 % 256 :: r / 16777216 % 256 :: (r * 2) % 256 :: (r * 2) / 256 % 256 :: (r * 2) / 65536 % 256 :: (r * 2) / 16777216 % 256 :: 2 % 256 :: 2 / 256 % 256 :: 16 % 256 :: 16 / 256 % 256 :: 'd'.toNat % 256 :: 'a'.toNat % 256 :: (List.replicate 6 0 ++ tail)) (36 + 1 + 1) ('t'.toNat % 256)
        = 'R'.toNat % 256 :: 'I'.toNat % 256 :: 'F'.toNat % 256 :: 'F'.toNat % 256 :: (36 + n * 2) % 256 :: (36 + n * 2) / 256 % 256 :: (36 + n * 2) / 65536 % 256 :: (36 + n * 2) / 16777216 % 256 :: 'W'.toNat % 256 :: 'A'.toNat % 256 :: 'V'.toNat % 256 :: 'E'.toNat % 256 :: 'f'.toNat % 256 :: 'm'.toNat % 256 :: 't'.toNat % 256 :: ' '.toNat % 256 :: 16 % 256 :: 16 / 256 % 256 :: 16 / 65536 % 256 :: 16 / 16777216 % 256 :: 1 % 256 :: 1 / 256 % 256 :: 1 % 256 :: 1 / 256 % 256 :: r % 256 :: r / 256 % 256 :: r / 65536 % 256 :: r / 16777216 % 256 :: (r * 2) % 256 :: (r * 2) / 256 % 256 :: (r * 2) / 65536 % 256 :: (r * 2) / 16777216 % 256 :: 2 % 256 :: 2 / 256 % 256 :: 16 % 256 :: 16 / 256 % 256 :: 'd'.toNat % 256 :: 'a'.toNat % 256 :: 't'.toNat % 256 :: (List.replicate 5 0 ++ tail) from rfl]
  rw [show List.set ('R'.toNat % 256 :: 'I'.toNat % 256 :: 'F'.toNat % 256 :: 'F'.toNat % 256 :: (36 + n * 2) % 256 :: (36 + n * 2) / 256 % 256 :: (36 + n * 2) / 65536 % 256 :: (36 + n * 2) / 16777216 % 256 :: 'W'.toNat % 256 :: 'A'.toNat % 256 :: 'V'.toNat % 256 :: 'E'.toNat % 256 :: 'f'.toNat % 256 :: 'm'.toNat % 256 :: 't'.toNat % 256 :: ' '.toNat % 256 :: 16 % 256 :: 16 / 256 % 256 :: 16 / 65536 % 256 :: 16 / 16777216 % 256 :: 1 % 256 :: 1 / 256 % 256 :: 1 % 256 :: 1 / 256 % 256 :: r % 256 :: r / 256 % 256 :: r / 65536 % 256 :: r / 16777216 % 256 :: (r * 2) % 256 :: (r * 2) / 256 % 256 :: (r * 2) / 65536 % 256 :: (r * 2) / 16777216 % 256 :: 2 % 256 :: 2 / 256 % 256 :: 16 % 256 :: 16 / 256 % 256 :: 'd'.toNat % 256 :: 'a'.toNat % 256 :: 't'.toNat % 256 :: (List.replicate 5 0 ++ tail)) (36 + 1 + 1 + 1) ('a'.toNat % 256)
        = 'R'.toNat % 256 :: 'I'.toNat % 256 :: 'F'.toNat % 256 :: 'F'.toNat % 256 :: (36 + n * 2) % 256 :: (36 + n * 2) / 256 % 256 :: (36 + n * 2) / 65536 % 256 :: (36 + n * 2) / 16777216 % 256 :: 'W'.toNat % 256 :: 'A'.toNat % 256 :: 'V'.toNat % 256 :: 'E'.toNat % 256 :: 'f'.toNat % 256 :: 'm'.toNat % 256 :: 't'.toNat % 256 :: ' '.toNat % 256 :: 16 % 256 :: 16 / 256 % 256 :: 16 / 65536 % 256 :: 16 / 16777216 % 256 :: 1 % 256 :: 1 / 256 % 256 :: 1 % 256 :: 1 / 256 % 256 :: r % 256 :: r / 256 % 256 :: r / 65536 % 256 :: r / 16777216 % 256 :: (r * 2) % 256 :: (r * 2) / 256 % 256 :: (r * 2) / 65536 % 256 :: (r * 2) / 16777216 % 256 :: 2 % 256 :: 2 / 256 % 256 :: 16 % 256 :: 16 / 256 % 256 :: 'd'.toNat % 256 :: 'a'.toNat % 256 :: 't'.toNat % 256 :: 'a'.toNat % 256 :: (List.replicate 4 0 ++ tail) from rfl]
  rw [show List.set ('R'.toNat % 256 :: 'I'.toNat % 256 :: 'F'.toNat % 256 :: 'F'.toNat % 256 :: (36 + n * 2) % 256 :: (36 + n * 2) / 256 % 256 :: (36 + n * 2) / 65536 % 256 :: (36 + n * 2) / 16777216 % 256 :: 'W'.toNat % 256 :: 'A'.toNat % 256 :: 'V'.toNat % 256 :: 'E'.toNat % 256 :: 'f'.toNat % 256 :: 'm'.toNat % 256 :: 't'.toNat % 256 :: ' '.toNat % 256 :: 16 % 256 :: 16 / 256 % 256 :: 16 / 65536 % 256 :: 16 / 16777216 % 256 :: 1 % 256 :: 1 / 256 % 256 :: 1 % 256 :: 1 / 256 % 256 :: r % 256 :: r / 256 % 256 :: r / 65536 % 256 :: r / 16777216 % 256 :: (r * 2) % 256 :: (r * 2) / 256 % 256 :: (r * 2) / 65536 % 256 :: (r * 2) / 16777216 % 256 :: 2 % 256 :: 2 / 256 % 256 :: 16 % 256 :: 16 / 256 % 256 :: 'd'.toNat % 256 :: 'a'.toNat % 256 :: 't'.toNat % 256 :: 'a'.toNat % 256 :: (List.replicate 4 0 ++ tail)) (40) ((n * 2) % 256)
        = 'R'.toNat % 256 :: 'I'.toNat % 256 :: 'F'.toNat % 256 :: 'F'.toNat % 256 :: (36 + n * 2) % 256 :: (36 + n * 2) / 256 % 256 :: (36 + n * 2) / 65536 % 256 :: (36 + n * 2) / 16777216 % 256 :: 'W'.toNat % 256 :: 'A'.toNat % 256 :: 'V'.toNat % 256 :: 'E'.toNat % 256 :: 'f'.toNat % 256 :: 'm'.toNat % 256 :: 't'.toNat % 256 :: ' '.toNat % 256 :: 16 % 256 :: 16 / 256 % 256 :: 16 / 65536 % 256 :: 16 / 16777216 % 256 :: 1 % 256 :: 1 / 256 % 256 :: 1 % 256 :: 1 / 256 % 256 :: r % 256 :: r / 256 % 256 :: r / 65536 % 256 :: r / 16777216 % 256 :: (r * 2) % 256 :: (r * 2) / 256 % 256 :: (r * 2) / 65536 % 256 :: (r * 2) / 16777216 % 256 :: 2 % 256 :: 2 / 256 % 256 :: 16 % 256 :: 16 / 256 % 256 :: 'd'.toNat % 256 :: 'a'.toNat % 256 :: 't'.toNat % 256 :: 'a'.toNat % 256 :: (n * 2) % 256 :: (List.replicate 3 0 ++ tail) from rfl]
  rw [show List.set ('R'.toNat % 256 :: 'I'.toNat % 256 :: 'F'.toNat % 256 :: 'F'.toNat % 256 :: (36 + n * 2) % 256 :: (36 + n * 2) / 256 % 256 :: (36 + n * 2) / 65536 % 256 :: (36 + n * 2) / 16777216 % 256 :: 'W'.toNat % 256 :: 'A'.toNat % 256 :: 'V'.toNat % 256 :: 'E'.toNat % 256 :: 'f'.toNat % 256 :: 'm'.toNat % 256 :: 't'.toNat % 256 :: ' '.toNat % 256 :: 16 % 256 :: 16 / 256 % 256 :: 16 / 65536 % 256 :: 16 / 16777216 % 256 :: 1 % 256 :: 1 / 256 % 256 :: 1 % 256 :: 1 / 256 % 256 :: r % 256 :: r / 256 % 256 :: r / 65536 % 256 :: r / 16777216 % 256 :: (r * 2) % 256 :: (r * 2) / 256 % 256 :: (r * 2) / 65536 % 256 :: (r * 2) / 16777216 % 256 :: 2 % 256 :: 2 / 256 % 256 :: 16 % 256 :: 16 / 256 % 256 :: 'd'.toNat % 256 :: 'a'.toNat % 256 :: 't'.toNat % 256 :: 'a'.toNat % 256 :: (n * 2) % 256 :: (List.replicate 3 0 ++ tail)) (40 + 1) ((n * 2) / 256 % 256)
        = 'R'.toNat % 256 :: 'I'.toNat % 256 :: 'F'.toNat % 256 :: 'F'.toNat % 256 :: (36 + n * 2) % 256 :: (36 + n * 2) / 256 % 256 :: (36 + n * 2) / 65536 % 256 :: (36 + n * 2) / 16777216 % 256 :: 'W'.toNat % 256 :: 'A'.toNat % 256 :: 'V'.toNat % 256 :: 'E'.toNat % 256 :: 'f'.toNat % 256 :: 'm'.toNat % 256 :: 't'.toNat % 256 :: ' '.toNat % 256 :: 16 % 256 :: 16 / 256 % 256 :: 16 / 65536 % 256 :: 16 / 16777216 % 256 :: 1 % 256 :: 1 / 256 % 256 :: 1 % 256 :: 1 / 256 % 256 :: r % 256 :: r / 256 % 256 :: r / 65536 % 256 :: r / 16777216 % 256 :: (r * 2) % 256 :: (r * 2) / 256 % 256 :: (r * 2) / 65536 % 256 :: (r * 2) / 16777216 % 256 :: 2 % 256 :: 2 / 256 % 256 :: 16 % 256 :: 16 / 256 % 256 :: 'd'.toNat % 256 :: 'a'.toNat % 256 :: 't'.toNat % 256 :: 'a'.toNat % 256 :: (n * 2) % 256 :: (n * 2) / 256 % 256 :: (List.replicate 2 0 ++ tail) from rfl]
  rw [show List.set ('R'.toNat % 256 :: 'I'.toNat % 256 :: 'F'.toNat % 256 :: 'F'.toNat % 256 :: (36 + n * 2) % 256 :: (36 + n * 2) / 256 % 256 :: (36 + n * 2) / 65536 % 256 :: (36 + n * 2) / 16777216 % 256 :: 'W'.toNat % 256 :: 'A'.toNat % 256 :: 'V'.toNat % 256 :: 'E'.toNat % 256 :: 'f'.toNat % 256 :: 'm'.toNat % 256 :: 't'.toNat % 256 :: ' '.toNat % 256 :: 16 % 256 :: 16 / 256 % 256 :: 16 / 65536 % 256 :: 16 / 16777216 % 256 :: 1 % 256 :: 1 / 256 % 256 :: 1 % 256 :: 1 / 256 % 256 :: r % 256 :: r / 256 % 256 :: r / 65536 % 256 :: r / 16777216 % 256 :: (r * 2) % 256 :: (r * 2) / 256 % 256 :: (r * 2) / 65536 % 256 :: (r * 2) / 16777216 % 256 :: 2 % 256 :: 2 / 256 % 256 :: 16 % 256 :: 16 / 256 % 256 :: 'd'.toNat % 256 :: 'a'.toNat % 256 :: 't'.toNat % 256 :: 'a'.toNat % 256 :: (n * 2) % 256 :: (n * 2) / 256 % 256 :: (List.replicate 2 0 ++ tail)) (40 + 2) ((n * 2) / 65536 % 256)
        = 'R'.toNat % 256 :: 'I'.toNat % 256 :: 'F'.toNat % 256 :: 'F'.toNat % 256 :: (36 + n * 2) % 256 :: (36 + n * 2) / 256 % 256 :: (36 + n * 2) / 65536 % 256 :: (36 + n * 2) / 16777216 % 256 :: 'W'.toNat % 256 :: 'A'.toNat % 256 :: 'V'.toNat % 256 :: 'E'.toNat % 256 :: 'f'.toNat % 256 :: 'm'.toNat % 256 :: 't'.toNat % 256 :: ' '.toNat % 256 :: 16 % 256 :: 16 / 256 % 256 :: 16 / 65536 % 256 :: 16 / 16777216 % 256 :: 1 % 256 :: 1 / 256 % 256 :: 1 % 256 :: 1 / 256 % 256 :: r % 256 :: r / 256 % 256 :: r / 65536 % 256 :: r / 16777216 % 256 :: (r * 2) % 256 :: (r * 2) / 256 % 256 :: (r * 2) / 65536 % 256 :: (r * 2) / 16777216 % 256 :: 2 % 256 :: 2 / 256 % 256 :: 16 % 256 :: 16 / 256 % 256 :: 'd'.toNat % 256 :: 'a'.toNat % 256 :: 't'.toNat % 256 :: 'a'.toNat % 256 :: (n * 2) % 256 :: (n * 2) / 256 % 256 :: (n * 2) / 65536 % 256 :: (List.replicate 1 0 ++ tail) from rfl]
  rw [show List.set ('R'.toNat % 256 :: 'I'.toNat % 256 :: 'F'.toNat % 256 :: 'F'.toNat % 256 :: (36 + n * 2) % 256 :: (36 + n * 2) / 256 % 256 :: (36 + n * 2) / 65536 % 256 :: (36 + n * 2) / 16777216 % 256 :: 'W'.toNat % 256 :: 'A'.toNat % 256 :: 'V'.toNat % 256 :: 'E'.toNat % 256 :: 'f'.toNat % 256 :: 'm'.toNat % 256 :: 't'.toNat % 256 :: ' '.toNat % 256 :: 16 % 256 :: 16 / 256 % 256 :: 16 / 65536 % 256 :: 16 / 16777216 % 256 :: 1 % 256 :: 1 / 256 % 256 :: 1 % 256 :: 1 / 256 % 256 :: r % 256 :: r / 256 % 256 :: r / 65536 % 256 :: r / 16777216 % 256 :: (r * 2) % 256 :: (r * 2) / 256 % 256 :: (r * 2) / 65536 % 256 :: (r * 2) / 16777216 % 256 :: 2 % 256 :: 2 / 256 % 256 :: 16 % 256 :: 16 / 256 % 256 :: 'd'.toNat % 256 :: 'a'.toNat % 256 :: 't'.toNat % 256 :: 'a'.toNat % 256 :: (n * 2) % 256 :: (n * 2) / 256 % 256 :: (n * 2) / 65536 % 256 :: (List.replicate 1 0 ++ tail)) (40 + 3) ((n * 2) / 16777216 % 256)
        = 'R'.toNat % 256 :: 'I'.toNat % 256 :: 'F'.toNat % 256 :: 'F'.toNat % 256 :: (36 + n * 2) % 256 :: (36 + n * 2) / 256 % 256 :: (36 + n * 2) / 65536 % 256 :: (36 + n * 2) / 16777216 % 256 :: 'W'.toNat % 256 :: 'A'.toNat % 256 :: 'V'.toNat % 256 :: 'E'.toNat % 256 :: 'f'.toNat % 256 :: 'm'.toNat % 256 :: 't'.toNat % 256 :: ' '.toNat % 256 :: 16 % 256 :: 16 / 256 % 256 :: 16 / 65536 % 256 :: 16 / 16777216 % 256 :: 1 % 256 :: 1 / 256 % 256 :: 1 % 256 :: 1 / 256 % 256 :: r % 256 :: r / 256 % 256 :: r / 65536 % 256 :: r / 16777216 % 256 :: (r * 2) % 256 :: (r * 2) / 256 % 256 :: (r * 2) / 65536 % 256 :: (r * 2) / 16777216 % 256 :: 2 % 256 :: 2 / 256 % 256 :: 16 % 256 :: 16 / 256 % 256 :: 'd'.toNat % 256 :: 'a'.toNat % 256 :: 't'.toNat % 256 :: 'a'.toNat % 256 :: (n * 2) % 256 :: (n * 2) / 256 % 256 :: (n * 2) / 65536 % 256 :: (n * 2) / 16777216 % 256 :: (List.replicate 0 0 ++ tail) from rfl]
  rfl


theorem set_append_head (pre : List ℕ) (a : ℕ) (l : List ℕ) (v : ℕ) :
    (pre ++ a :: l).set pre.length v = pre ++ v :: l := by
  induction pre with
  | nil => rfl
  | cons x t ih => simp only [List.cons_append, List.length_cons, List.set_cons_succ, ih]

theorem set_append_second (pre : List ℕ) (a b : ℕ) (l : List ℕ) (v : ℕ) :
    (pre ++ a :: b :: l).set (pre.length + 1) v = pre ++ a :: v :: l := by
  induction pre with
  | nil => rfl
  | cons x t ih =>
      have hidx : (x :: t).length + 1 = (t.length + 1) + 1 := by simp
      simp only [List.cons_append, hidx, List.set_cons_succ, ih]

theorem setInt16_append (pre : List ℕ) (l : List ℕ) (e : ℤ) :
    setInt16 (pre ++ 0 :: 0 :: l) pre.length e
      = pre ++ ((e % 65536).toNat % 256 :: (e % 65536).toNat / 256 % 256 :: l) := by
  unfold setInt16 setUint16
  rw [set_append_head, set_append_second]

theorem writeBufferSamples_spec (samples : List ℚ) :
    ∀ (pre tail : List ℕ),
      writeBufferSamples (pre ++ (List.replicate (2 * samples.length) 0 ++ tail))
          pre.length samples
        = pre ++ (pcm16Bytes samples ++ tail) := by
  induction samples with
  | nil => intro pre tail; simp [writeBufferSamples, pcm16Bytes]
  | cons s rest ih =>
      intro pre tail
      have hlen : 2 * (s :: rest).length = 2 * rest.length + 1 + 1 := by
        simp [List.length_cons]; ring
      rw [hlen, List.replicate_succ, List.replicate_succ]
      simp only [writeBufferSamples, List.cons_append]
      rw [show (pre ++ 0 :: 0 :: (List.replicate (2 * rest.length) 0 ++ tail))
            = pre ++ (0 :: 0 :: (List.replicate (2 * rest.length) 0 ++ tail)) from rfl]
      rw [setInt16_append]
      have hshape : pre ++ ((encodeSample s % 65536).toNat % 256 ::
            (encodeSample s % 65536).toNat / 256 % 256 ::
            (List.replicate (2 * rest.length) 0 ++ tail))
          = (pre ++ i16le (encodeSample s)) ++
            (List.replicate (2 * rest.length) 0 ++ tail) := by
        simp [i16le, u16le, List.append_assoc]
      have hoff : pre.length + 2 = (pre ++ i16le (encodeSample s)).length := by
        simp [i16le, u16le, List.length_append]
      rw [hshape, hoff, ih (pre ++ i16le (encodeSample s)) tail]
      simp [pcm16Bytes_cons, List.append_assoc]

theorem writeAllSamples_spec (buffers : List (List ℚ)) :
    ∀ (pre tail : List ℕ),
      writeAllSamples (pre ++ (List.replicate (2 * totalLen buffers) 0 ++ tail))
          pre.length buffers
        = pre ++ (pcm16Bytes buffers.flatten ++ tail) := by
  induction buffers with
  | nil => intro pre tail; simp [writeAllSamples, totalLen, pcm16Bytes]
  | cons b rest ih =>
      intro pre tail
      have htot : totalLen (b :: rest) = b.length + totalLen rest := by
        simp [totalLen]
      have hrep : List.replicate (2 * totalLen (b :: rest)) (0:ℕ)
          = List.replicate (2 * b.length) 0 ++ List.replicate (2 * totalLen rest) 0 := by
        rw [htot, Nat.mul_add, List.replicate_add]
      rw [hrep, List.append_assoc]
      simp only [writeAllSamples]
      rw [writeBufferSamples_spec b pre (List.replicate (2 * totalLen rest) 0 ++ tail)]
      have hoff : pre.length + 2 * b.length = (pre ++ pcm16Bytes b).length := by
        simp [List.length_append, pcm16Bytes_length]
      have hshape : pre ++ (pcm16Bytes b ++ (List.replicate (2 * totalLen rest) 0 ++ tail))
          = (pre ++ pcm16Bytes b) ++ (List.replicate (2 * totalLen rest) 0 ++ tail) := by
        simp [List.append_assoc]
      rw [hshape, hoff, ih (pre ++ pcm16Bytes b) tail]
      simp [pcm16Bytes_append, List.append_assoc]

/-- Characterization of `convertToWAV`: on a nonempty recording it produces
exactly the specification image `wavBytes` of the flattened sample stream. -/
theorem convertToWAV_eq (buffers : List (List ℚ)) (r : ℕ) (h : totalLen buffers ≠ 0) :
    convertToWAV buffers r = some (wavBytes buffers.flatten r) := by
  unfold convertToWAV
  rw [if_neg h]
  congr 1
  have hrep : List.replicate (44 + totalLen buffers * 2) (0:ℕ)
      = List.replicate 44 0 ++ List.replicate (2 * totalLen buffers) 0 := by
    rw [show 44 + totalLen buffers * 2 = 44 + 2 * totalLen buffers by ring,
      List.replicate_add]
  rw [hrep, writeWavHeader_replicate]
  have happ : hdrBytes (totalLen buffers) r ++ List.replicate (2 * totalLen buffers) 0
      = hdrBytes (totalLen buffers) r ++ (List.replicate (2 * totalLen buffers) 0 ++ []) := by
    simp
  rw [happ, show (44:ℕ) = (hdrBytes (totalLen buffers) r).length from rfl,
    writeAllSamples_spec buffers (hdrBytes (totalLen buffers) r) []]
  rw [wavBytes_eq_hdr_append, ← totalLen_eq_length_flatten]
  simp

theorem wavBytes_length (samples : List ℚ) (r : ℕ) :
    (wavBytes samples r).length = 44 + 2 * samples.length := by
  rw [wavBytes_eq_hdr_append, List.length_append, hdrBytes_length, pcm16Bytes_length]

/-! ## PCM16 decoding and the round-trip bound -/

/-- Two's-complement reading of a 16-bit word. -/
def toInt16 (w : ℕ) : ℤ :=
  if w % 65536 < 32768 then ((w % 65536 : ℕ) : ℤ) else ((w % 65536 : ℕ) : ℤ) - 65536

/-- Modelled from the spec: the round-trip property of §8 decodes each
16-bit PCM data word "back to float"; no decoder exists in the repository,
so it is modelled as the inverse of the encoder's scaling — negative words
divide by 0x8000, non-negative ones by 0x7FFF. -/
def pcm16ToFloat (i : ℤ) : ℚ :=
  if i < 0 then (i : ℚ) / 32768 else (i : ℚ) / 32767

/-- Decode a PCM16 data section: consecutive little-endian byte pairs. -/
def decodePCM16 : List ℕ → List ℚ
  | b0 :: b1 :: rest => pcm16ToFloat (toInt16 (b0 + 256 * b1)) :: decodePCM16 rest
  | _ => []

theorem clampSample_bounds (s : ℚ) : -1 ≤ clampSample s ∧ clampSample s ≤ 1 := by
  unfold clampSample
  constructor
  · exact le_max_left _ _
  · exact max_le (by norm_num) (min_le_left _ _)

theorem encodeSample_range (s : ℚ) :
    -32768 ≤ encodeSample s ∧ encodeSample s ≤ 32767 := by
  obtain ⟨hlb, hub⟩ := clampSample_bounds s
  unfold encodeSample jsTrunc
  by_cases hneg : clampSample s < 0
  · rw [if_pos hneg, if_neg (by nlinarith)]
    constructor
    · have h1 : (-32768 : ℚ) ≤ clampSample s * 32768 := by nlinarith
      have h2 : ((-32768 : ℤ) : ℚ) ≤ clampSample s * 32768 := by push_cast; exact h1
      calc (-32768 : ℤ) = ⌈((-32768 : ℤ) : ℚ)⌉ := by rw [Int.ceil_intCast]
        _ ≤ ⌈clampSample s * 32768⌉ := Int.ceil_le_ceil h2
    · have h1 : clampSample s * 32768 ≤ 0 := by nlinarith
      have h2 : ⌈clampSample s * 32768⌉ ≤ 0 := Int.ceil_le.mpr (by exact_mod_cast h1)
      omega
  · rw [if_neg hneg]
    have hcnn : 0 ≤ clampSample s := le_of_not_lt hneg
    rw [if_pos (by nlinarith)]
    constructor
    · have h2 : (0 : ℤ) ≤ ⌊clampSample s * 32767⌋ := by
        apply Int.floor_nonneg.mpr; nlinarith
      omega
    · have h1 : clampSample s * 32767 ≤ ((32767 : ℤ) : ℚ) := by push_cast; nlinarith
      calc ⌊clampSample s * 32767⌋ ≤ ⌊((32767 : ℤ) : ℚ)⌋ := Int.floor_le_floor h1
        _ = 32767 := Int.floor_intCast _

theorem i16le_readback (i : ℤ) (h1 : -32768 ≤ i) (h2 : i ≤ 32767) :
    toInt16 ((i % 65536).toNat % 256 + 256 * ((i % 65536).toNat / 256 % 256)) = i := by
  have hnn : 0 ≤ i % 65536 := Int.emod_nonneg i (by norm_num)
  have hlt : i % 65536 < 65536 := Int.emod_lt_of_pos i (by norm_num)
  have hm : ((i % 65536).toNat : ℤ) = i % 65536 := Int.toNat_of_nonneg hnn
  have hcomb : (i % 65536).toNat % 256 + 256 * ((i % 65536).toNat / 256 % 256)
      = (i % 65536).toNat := by omega
  unfold toInt16
  rw [hcomb]
  split <;> omega

theorem decodePCM16_pcm16Bytes (samples : List ℚ) :
    decodePCM16 (pcm16Bytes samples)
      = samples.map fun s => pcm16ToFloat (encodeSample s) := by
  induction samples with
  | nil => rfl
  | cons s rest ih =>
      obtain ⟨ha, hb⟩ := encodeSample_range s
      rw [pcm16Bytes_cons]
      simp only [i16le, u16le, List.cons_append, List.map_cons]
      show decodePCM16 (_ :: _ :: ([] ++ pcm16Bytes rest)) = _
      simp only [List.nil_append, decodePCM16]
      rw [i16le_readback _ ha hb, ih]

theorem roundtrip_sample_close (s : ℚ) :
    |pcm16ToFloat (encodeSample s) - clampSample s| ≤ 1 / 32767 := by
  obtain ⟨hlb, hub⟩ := clampSample_bounds s
  unfold encodeSample jsTrunc
  by_cases hneg : clampSample s < 0
  · rw [if_pos hneg, if_neg (by nlinarith)]
    have hceil_le : clampSample s * 32768 ≤ (⌈clampSample s * 32768⌉ : ℚ) := Int.le_ceil _
    have hceil_lt : ((⌈clampSample s * 32768⌉ : ℤ) : ℚ) < clampSample s * 32768 + 1 :=
      Int.ceil_lt_add_one _
    by_cases he : ⌈clampSample s * 32768⌉ < 0
    · unfold pcm16ToFloat
      rw [if_pos he]
      have heq : ((⌈clampSample s * 32768⌉ : ℤ) : ℚ) / 32768 - clampSample s
          = (((⌈clampSample s * 32768⌉ : ℤ) : ℚ) - clampSample s * 32768) / 32768 := by
        ring
      rw [heq, abs_div]
      have habs : |((⌈clampSample s * 32768⌉ : ℤ) : ℚ) - clampSample s * 32768| ≤ 1 := by
        rw [abs_le]
        constructor <;> nlinarith
      have h327 : |(32768 : ℚ)| = 32768 := by norm_num
      rw [h327]
      calc |((⌈clampSample s * 32768⌉ : ℤ) : ℚ) - clampSample s * 32768| / 32768
          ≤ 1 / 32768 := by
            apply div_le_div_of_nonneg_right habs (by norm_num) |>.trans_eq rfl
        _ ≤ 1 / 32767 := by norm_num
    · have hle0 : ⌈clampSample s * 32768⌉ ≤ 0 := Int.ceil_le.mpr (by push_cast; nlinarith)
      have he0 : ⌈clampSample s * 32768⌉ = 0 := by omega
      rw [he0]
      unfold pcm16ToFloat
      norm_num
      rw [abs_of_nonpos (by linarith)]
      have : clampSample s * 32768 + 1 > 0 := by
        have := hceil_lt
        rw [he0] at this
        push_cast at this
        linarith
      nlinarith
  · rw [if_neg hneg]
    have hcnn : 0 ≤ clampSample s := le_of_not_lt hneg
    rw [if_pos (by nlinarith)]
    have hfl_le : ((⌊clampSample s * 32767⌋ : ℤ) : ℚ) ≤ clampSample s * 32767 :=
      Int.floor_le _
    have hfl_gt : clampSample s * 32767 - 1 < ((⌊clampSample s * 32767⌋ : ℤ) : ℚ) :=
      Int.sub_one_lt_floor _
    have hfnn : 0 ≤ ⌊clampSample s * 32767⌋ := Int.floor_nonneg.mpr (by nlinarith)
    unfold pcm16ToFloat
    rw [if_neg (by omega)]
    have heq : ((⌊clampSample s * 32767⌋ : ℤ) : ℚ) / 32767 - clampSample s
        = (((⌊clampSample s * 32767⌋ : ℤ) : ℚ) - clampSample s * 32767) / 32767 := by
      ring
    rw [heq, abs_div]
    have habs : |((⌊clampSample s * 32767⌋ : ℤ) : ℚ) - clampSample s * 32767| ≤ 1 := by
      rw [abs_le]
      constructor <;> nlinarith
    have h327 : |(32767 : ℚ)| = 32767 := by norm_num
    rw [h327]
    exact div_le_div_of_nonneg_right habs (by norm_num) |>.trans (by norm_num)

set_option maxHeartbeats 3200000 in
/-- C1: for every sequence of sample chunks with total sample count N > 0
and sample rate R, `convertToWAV` produces a buffer of exactly 44 + 2N
bytes: ASCII "RIFF" at offset 0, little-endian uint32 36+2N at offset 4,
"WAVE" at 8, "fmt " at 12 with chunk size 16, format code 1 (PCM), one
channel, sample rate R, byte rate 2R, block align 2, 16 bits per sample,
then "data" at 36 with size 2N, followed by the samples in order of
arrival, clamped to [-1,1], scaled by 0x8000 when negative and 0x7FFF
otherwise, as little-endian signed 16-bit integers. -/
theorem C1_convertToWAV_layout (buffers : List (List ℚ)) (R : ℕ)
    (h : 0 < totalLen buffers) :
    ∃ w, convertToWAV buffers R = some w ∧
      w.length = 44 + 2 * totalLen buffers ∧
      w.take 4 = asciiBytes "RIFF" ∧
      ((w.drop 4).take 4 = u32le (36 + 2 * totalLen buffers) ∧
      (w.drop 8).take 4 = asciiBytes "WAVE" ∧
      (w.drop 12).take 4 = asciiBytes "fmt " ∧
      (w.drop 16).take 4 = u32le 16 ∧
      (w.drop 20).take 2 = u16le 1 ∧
      (w.drop 22).take 2 = u16le 1 ∧
      (w.drop 24).take 4 = u32le R ∧
      (w.drop 28).take 4 = u32le (2 * R) ∧
      (w.drop 32).take 2 = u16le 2 ∧
      (w.drop 34).take 2 = u16le 16 ∧
      (w.drop 36).take 4 = asciiBytes "data" ∧
      (w.drop 40).take 4 = u32le (2 * totalLen buffers) ∧
      w.drop 44 = pcm16Bytes buffers.flatten) := by
  have hflat : totalLen buffers = buffers.flatten.length := totalLen_eq_length_flatten buffers
  refine ⟨wavBytes buffers.flatten R, convertToWAV_eq buffers R (by omega), ?_⟩
  rw [hflat]
  rw [show 2 * buffers.flatten.length = buffers.flatten.length * 2 from Nat.mul_comm _ _]
  rw [show 2 * R = R * 2 from Nat.mul_comm _ _]
  refine ⟨?_, rfl, rfl, rfl, rfl, rfl, rfl, rfl, rfl, rfl, rfl, rfl, rfl, rfl, rfl⟩
  rw [wavBytes_length]
  ring

/-- Witness for C1 at the one-chunk recording [[0]] with sample rate 8000. -/
theorem C1_witness :
    0 < totalLen [[(0 : ℚ)]] ∧
    ∃ w, convertToWAV [[(0 : ℚ)]] 8000 = some w ∧
      w.length = 44 + 2 * totalLen [[(0 : ℚ)]] ∧
      w.take 4 = asciiBytes "RIFF" ∧
      ((w.drop 4).take 4 = u32le (36 + 2 * totalLen [[(0 : ℚ)]]) ∧
      (w.drop 8).take 4 = asciiBytes "WAVE" ∧
      (w.drop 12).take 4 = asciiBytes "fmt " ∧
      (w.drop 16).take 4 = u32le 16 ∧
      (w.drop 20).take 2 = u16le 1 ∧
      (w.drop 22).take 2 = u16le 1 ∧
      (w.drop 24).take 4 = u32le 8000 ∧
      (w.drop 28).take 4 = u32le (2 * 8000) ∧
      (w.drop 32).take 2 = u16le 2 ∧
      (w.drop 34).take 2 = u16le 16 ∧
      (w.drop 36).take 4 = asciiBytes "data" ∧
      (w.drop 40).take 4 = u32le (2 * totalLen [[(0 : ℚ)]]) ∧
      w.drop 44 = pcm16Bytes [[(0 : ℚ)]].flatten) :=
  ⟨by decide, C1_convertToWAV_layout [[(0 : ℚ)]] 8000 (by decide)⟩

/-- C2: encoding a nonempty recording with the WAV encoder and decoding each
16-bit PCM data word back to a float yields, position by position, a value
within 1/32767 of the original sample after clamping to [-1,1]. -/
theorem C2_wav_roundtrip (buffers : List (List ℚ)) (R : ℕ)
    (h : 0 < totalLen buffers) :
    ∃ w, convertToWAV buffers R = some w ∧
      List.Forall₂ (fun d s => |d - clampSample s| ≤ 1 / 32767)
        (decodePCM16 (w.drop 44)) buffers.flatten := by
  refine ⟨wavBytes buffers.flatten R, convertToWAV_eq buffers R (by omega), ?_⟩
  rw [show (wavBytes buffers.flatten R).drop 44 = pcm16Bytes buffers.flatten from rfl,
    decodePCM16_pcm16Bytes]
  rw [List.forall₂_map_left_iff]
  exact List.forall₂_same.mpr fun s _ => roundtrip_sample_close s

/-- Witness for C2 at the one-chunk recording [[1/2]] with sample rate 16000. -/
theorem C2_witness :
    0 < totalLen [[(1 / 2 : ℚ)]] ∧
    ∃ w, convertToWAV [[(1 / 2 : ℚ)]] 16000 = some w ∧
      List.Forall₂ (fun d s => |d - clampSample s| ≤ 1 / 32767)
        (decodePCM16 (w.drop 44)) [[(1 / 2 : ℚ)]].flatten :=
  ⟨by decide, C2_wav_roundtrip [[(1 / 2 : ℚ)]] 16000 (by decide)⟩

/-! ## Speaker labels and diarization formatting

`transcribeWithDiarization` resolves a speaker label for each utterance via
`getSpeakerLabel` and joins "[Speaker X] text" lines; when the completed job
carries no utterance list it returns the raw transcript text.
-/

/-- A JavaScript value in `speaker` position: null/undefined, a number
(the integers the service produces), or a string. -/
inductive JSValue where
  | null : JSValue
  | num : ℤ → JSValue
  | str : String → JSValue
deriving DecidableEq

/-- Value of a digit run, most significant first. -/
def digitsVal (ds : List Char) : ℕ :=
  ds.foldl (fun a c => 10 * a + (c.toNat - 48)) 0

/-- Longest leading digit run, or failure when there is none. -/
def parseDigits (l : List Char) : Option ℕ :=
  match l.takeWhile Char.isDigit with
  | [] => none
  | ds => some (digitsVal ds)

/-- ECMAScript `parseInt` as used on speaker indices: an optional sign
followed by a base-10 digit prefix; anything without a digit prefix is NaN
(modelled `none`).  Whitespace skipping and hex prefixes never arise for
the service's speaker values and are not modelled. -/
def jsParseInt (s : String) : Option ℤ :=
  match s.data with
  | '-' :: rest => (parseDigits rest).map fun n => -(n : ℤ)
  | '+' :: rest => (parseDigits rest).map fun n => (n : ℤ)
  | l => (parseDigits l).map fun n => (n : ℤ)

/-- `String.fromCharCode(65 + (num % 26))`: JavaScript `%` is the truncated
remainder, `Int.tmod`. -/
def speakerLetter (n : ℤ) : String :=
  String.mk [Char.ofNat (65 + n.tmod 26).toNat]

/-- The `getSpeakerLabel` closure of `transcribeWithDiarization`:
null/undefined map to "Unknown"; values whose `parseInt` is NaN map to
their literal string form; numeric indices map to a letter. -/
def getSpeakerLabel : JSValue → String
  | JSValue.null => "Unknown"
  | JSValue.num n => speakerLetter n
  | JSValue.str s =>
      match jsParseInt s with
      | none => s
      | some n => speakerLetter n

/-- One utterance of a completed diarization job. -/
structure Utterance where
  speaker : JSValue
  text : String
deriving DecidableEq

/-- The utterance rendering of `transcribeWithDiarization`:
"[Speaker X] text" lines joined by newlines, in utterance order. -/
def formatUtterances (us : List Utterance) : String :=
  String.intercalate "\n"
    (us.map fun u => "[Speaker " ++ getSpeakerLabel u.speaker ++ "] " ++ u.text)

/-- Result formatting of a completed job: the raw transcript text when the
job has no utterance list, the joined utterance lines otherwise. -/
def formatDiarizedResult (text : String) (utterances : Option (List Utterance)) : String :=
  match utterances with
  | none => text
  | some us => formatUtterances us

theorem tmod_natCast (i m : ℕ) : Int.tmod (i : ℤ) (m : ℤ) = ((i % m : ℕ) : ℤ) := rfl

theorem speakerLetter_natCast (i : ℕ) :
    speakerLetter (i : ℤ) = String.mk [Char.ofNat (65 + i % 26)] := by
  unfold speakerLetter
  rw [show (26 : ℤ) = ((26 : ℕ) : ℤ) from rfl, tmod_natCast]
  have h : ((65 : ℤ) + ((i % 26 : ℕ) : ℤ)).toNat = 65 + i % 26 := by omega
  rw [h]

/-- C3: a completed job without an utterance list returns the raw
transcript unchanged; otherwise the utterances are rendered in order as
"[Speaker letter] text" lines joined by newlines, with letter cyclic in the
index mod 26, label 0 = "A", null speakers labelled "Unknown", non-numeric
speakers kept literally; the two-utterance example renders as stated. -/
theorem C3_diarization_formatting :
    (∀ text : String, formatDiarizedResult text none = text) ∧
    (∀ (text : String) (us : List Utterance),
      formatDiarizedResult text (some us)
        = String.intercalate "\n"
            (us.map fun u => "[Speaker " ++ getSpeakerLabel u.speaker ++ "] " ++ u.text)) ∧
    (∀ i : ℕ, getSpeakerLabel (JSValue.num i) = getSpeakerLabel (JSValue.num (i + 26))) ∧
    getSpeakerLabel (JSValue.num 0) = "A" ∧
    getSpeakerLabel JSValue.null = "Unknown" ∧
    (∀ s : String, jsParseInt s = none → getSpeakerLabel (JSValue.str s) = s) ∧
    formatDiarizedResult "raw"
        (some [⟨JSValue.num 0, "hi"⟩, ⟨JSValue.num 1, "there"⟩])
      = "[Speaker A] hi\n[Speaker B] there" := by
  refine ⟨fun _ => rfl, fun _ _ => rfl, ?_, by decide, rfl, ?_, by decide⟩
  · intro i
    show speakerLetter (i : ℤ) = speakerLetter ((i : ℤ) + 26)
    rw [show ((i : ℤ) + 26) = (((i + 26 : ℕ)) : ℤ) by push_cast; ring]
    rw [speakerLetter_natCast, speakerLetter_natCast, Nat.add_mod_right]
  · intro s hs
    show (match jsParseInt s with
      | none => s
      | some n => speakerLetter n) = s
    rw [hs]

/-- Witness for C3: the non-numeric speaker "A" keeps its literal value and
label 3 equals label 29. -/
theorem C3_witness :
    jsParseInt "A" = none ∧
    getSpeakerLabel (JSValue.str "A") = "A" ∧
    getSpeakerLabel (JSValue.num 3) = getSpeakerLabel (JSValue.num 29) :=
  ⟨by decide, C3_diarization_formatting.2.2.2.2.2.1 "A" (by decide),
    C3_diarization_formatting.2.2.1 3⟩

/-! ## Diarization poll loop

`transcribeWithDiarization` polls the job endpoint in an unbounded loop:
each parsed status body either completes (format and return), errors
(throw "Transcription error: ..."), or causes a 3000 ms wait followed by
the next poll.  The loop is modelled over the finite sequence of status
bodies the service returns; exhausting the sequence without a terminal
status means the source loop would simply keep polling.
-/

/-- One parsed poll response body (`statusData`). -/
structure PollResponse where
  status : String
  error : String
  text : String
  utterances : Option (List Utterance)
deriving DecidableEq

/-- Outcome of the poll loop: success and failure record the total
milliseconds slept before the terminal poll. -/
inductive PollOutcome where
  | success : ℕ → String → PollOutcome
  | failure : ℕ → String → PollOutcome
  | stillPolling : PollOutcome
deriving DecidableEq

/-- The `while (true)` poll loop of `transcribeWithDiarization`, stepping
through the service's successive status bodies: "completed" formats the
result, "error" throws with the service's error text, and anything else
sleeps 3000 ms and polls again. -/
def pollLoop : List PollResponse → ℕ → PollOutcome
  | [], _ => PollOutcome.stillPolling
  | r :: rest, waited =>
    if r.status = "completed" then
      PollOutcome.success waited (formatDiarizedResult r.text r.utterances)
    else if r.status = "error" then
      PollOutcome.failure waited ("Transcription error: " ++ r.error)
    else
      pollLoop rest (waited + 3000)

theorem pollLoop_skips_nonterminal (pre : List PollResponse) :
    ∀ (l : List PollResponse) (w : ℕ),
      (∀ x ∈ pre, x.status ≠ "completed" ∧ x.status ≠ "error") →
      pollLoop (pre ++ l) w = pollLoop l (w + 3000 * pre.length) := by
  induction pre with
  | nil => intro l w _; simp
  | cons p t ih =>
      intro l w hp
      obtain ⟨hc, he⟩ := hp p (by simp)
      show pollLoop (p :: (t ++ l)) w = _
      rw [pollLoop]
      rw [if_neg (by simpa using hc), if_neg (by simpa using he)]
      rw [ih l (w + 3000) fun x hx => hp x (by simp [hx])]
      congr 1
      simp [List.length_cons]
      ring

/-- C4: the poll loop advances on a fixed 3-second interval; a status
sequence of non-terminal polls ending in "completed" yields the formatted
result (in particular queued/processing/processing/completed, after three
3-second waits); any sequence reaching an explicit "error" status fails
with the service-provided error text; and a single failed poll — a
response whose status is neither terminal value, as an HTTP-failed poll
body parses to — is not treated as job failure: the loop just waits 3000 ms
and keeps polling. -/
theorem C4_poll_loop (pre : List PollResponse) (r : PollResponse)
    (rest : List PollResponse) (w : ℕ)
    (hpre : ∀ x ∈ pre, x.status ≠ "completed" ∧ x.status ≠ "error") :
    (r.status = "completed" →
      pollLoop (pre ++ r :: rest) w
        = PollOutcome.success (w + 3000 * pre.length)
            (formatDiarizedResult r.text r.utterances)) ∧
    (r.status = "error" →
      pollLoop (pre ++ r :: rest) w
        = PollOutcome.failure (w + 3000 * pre.length)
            ("Transcription error: " ++ r.error)) ∧
    (r.status ≠ "completed" → r.status ≠ "error" →
      pollLoop (r :: rest) w = pollLoop rest (w + 3000)) := by
  refine ⟨?_, ?_, ?_⟩
  · intro hc
    rw [pollLoop_skips_nonterminal pre (r :: rest) w hpre, pollLoop, if_pos hc]
  · intro he
    have hc : ¬ r.status = "completed" := by
      intro h; rw [h] at he; exact absurd he (by decide)
    rw [pollLoop_skips_nonterminal pre (r :: rest) w hpre, pollLoop,
      if_neg hc, if_pos he]
  · intro hc he
    rw [pollLoop, if_neg hc, if_neg he]

/-- Witness for C4: the scenario queued, processing, processing, completed
yields a result after three 3-second waits, and the same prefix ending in
an error status fails with the service text. -/
theorem C4_witness :
    pollLoop
        [⟨"queued", "", "", none⟩, ⟨"processing", "", "", none⟩,
          ⟨"processing", "", "", none⟩, ⟨"completed", "", "done", none⟩] 0
      = PollOutcome.success 9000 "done" ∧
    pollLoop
        [⟨"queued", "", "", none⟩, ⟨"error", "boom", "", none⟩] 0
      = PollOutcome.failure 3000 ("Transcription error: " ++ "boom") ∧
    pollLoop [⟨"", "", "", none⟩, ⟨"completed", "", "ok", none⟩] 0
      = pollLoop [⟨"completed", "", "ok", none⟩] 3000 := by
  refine ⟨?_, ?_, ?_⟩
  · have h := (C4_poll_loop
      [⟨"queued", "", "", none⟩, ⟨"processing", "", "", none⟩,
        ⟨"processing", "", "", none⟩]
      ⟨"completed", "", "done", none⟩ [] 0 (by decide)).1 (by decide)
    simpa using h
  · have h := (C4_poll_loop [⟨"queued", "", "", none⟩]
      ⟨"error", "boom", "", none⟩ [] 0 (by decide)).2.1 (by decide)
    simpa using h
  · exact (C4_poll_loop [] ⟨"", "", "", none⟩
      [⟨"completed", "", "ok", none⟩] 0 (by decide)).2.2 (by decide) (by decide)

/-! ## JavaScript String.includes -/

/-- Whether `pat` occurs at the head of `l`. -/
def listStartsWith [BEq α] : List α → List α → Bool
  | _, [] => true
  | [], _ :: _ => false
  | a :: l, b :: m => a == b && listStartsWith l m

/-- Whether `pat` occurs contiguously anywhere in `l`. -/
def listHasSub [BEq α] : List α → List α → Bool
  | [], pat => listStartsWith [] pat
  | a :: l, pat => listStartsWith (a :: l) pat || listHasSub l pat

/-- JavaScript `s.includes(pat)`: case-sensitive contiguous substring. -/
def jsIncludes (s pat : String) : Bool := listHasSub s.data pat.data

/-! ## Diarization upload path selection

`uploadAudio` (AuthContext) validates the artifact size, then routes: at
most 9 MB attempts the Firebase Functions proxy and falls back to a direct
upload when the proxy call fails; above 9 MB it goes directly to the
service; above 200 MB it throws before any network call.  The surrounding
catch block rewrites thrown messages by substring classification
(`wrapUploadError`); the oversize message always contains "too large", so
that branch is modelled by its final rewritten text.
-/

/-- A network call the upload path can make. -/
inductive NetCall where
  | proxy : NetCall
  | direct : NetCall
deriving DecidableEq

/-- Environment of one upload attempt: outcome of the proxy call were it
made, outcome of the direct call were it made, and whether an API key is
configured for the direct path. -/
structure UploadEnv where
  proxyResult : Except String String
  directResult : Except String String
  hasApiKey : Bool

/-- The 9 MB `firebaseFunctionsMaxSize` threshold. -/
def firebaseFunctionsMaxSize : ℕ := 9 * 1024 * 1024

/-- The 200 MB `assemblyAIMaxSize` cap. -/
def assemblyAIMaxSize : ℕ := 200 * 1024 * 1024

/-- The catch-block message rewriting of `uploadAudio`. -/
def wrapUploadError (m : String) : String :=
  if jsIncludes m "Failed to fetch" || jsIncludes m "NetworkError" then
    "Network error uploading audio. Please check your internet connection and try again."
  else if jsIncludes m "401" || jsIncludes m "Unauthorized" then
    "Authentication failed. Please check your AssemblyAI API key configuration."
  else if jsIncludes m "413" || jsIncludes m "too large" then
    "Audio file is too large. Please record a shorter session or use a lower quality setting."
  else
    "Failed to upload audio: " ++ m

/-- The direct-upload stage, reached for large artifacts or after a failed
proxy attempt: requires a configured API key, then performs the direct
call. -/
def directUploadStage (calls : List NetCall) (env : UploadEnv) :
    List NetCall × Except String String :=
  if env.hasApiKey = false then
    (calls, Except.error (wrapUploadError
      ("Unable to upload audio.\n\nPlease ensure:\n1. Firebase Functions are deployed with uploadAudioToAssemblyAI function (for files < 10MB)\n2. Or set REACT_APP_ASSEMBLYAI_API_KEY in .env file\n3. Check your network connection")))
  else
    match env.directResult with
    | Except.ok url => (calls ++ [NetCall.direct], Except.ok url)
    | Except.error e => (calls ++ [NetCall.direct], Except.error (wrapUploadError e))

/-- `uploadAudio` of the diarization client, as the list of network calls
made and the final outcome.  The oversize branch throws an interpolated
"too large" message which the catch block rewrites to its fixed final text
(the message always contains "too large"). -/
def uploadAudio (size : ℕ) (env : UploadEnv) : List NetCall × Except String String :=
  if size = 0 then
    ([], Except.error (wrapUploadError "Audio blob is empty or invalid"))
  else if assemblyAIMaxSize < size then
    ([], Except.error
      "Audio file is too large. Please record a shorter session or use a lower quality setting.")
  else if firebaseFunctionsMaxSize < size then
    directUploadStage [] env
  else
    match env.proxyResult with
    | Except.ok url => ([NetCall.proxy], Except.ok url)
    | Except.error _ => directUploadStage [NetCall.proxy] env

theorem directUploadStage_no_proxy (env : UploadEnv) :
    NetCall.proxy ∉ (directUploadStage [] env).1 := by
  unfold directUploadStage
  split
  · simp
  · match env.directResult with
    | Except.ok url => simp
    | Except.error e => simp

theorem directUploadStage_after_proxy (env : UploadEnv) (h : env.hasApiKey = true) :
    (directUploadStage [NetCall.proxy] env).1 = [NetCall.proxy, NetCall.direct] := by
  unfold directUploadStage
  rw [if_neg (by simp [h])]
  match env.directResult with
  | Except.ok url => simp
  | Except.error e => simp

/-- C5 counterexample: an artifact of exactly 9 MB (the proxy threshold)
takes the proxy path, not the direct-upload path the claim asserts — the
boundary in `useDirectUpload = size > firebaseFunctionsMaxSize` is strict. -/
theorem C5_counterexample :
    (uploadAudio (9 * 1024 * 1024)
        ⟨Except.ok "u", Except.ok "u", true⟩).1 = [NetCall.proxy] ∧
    (uploadAudio (9 * 1024 * 1024)
        ⟨Except.ok "u", Except.ok "u", true⟩).1 ≠ [NetCall.direct] := by
  decide

/-- C5 (amended): upload path is selected purely by artifact size — above
the 200 MB cap it fails fast with the size error and no network call; a
nonempty artifact of at most 9 MB attempts the proxy first, succeeding
without a direct call when the proxy succeeds and falling back to the
direct upload when the proxy fails; strictly above 9 MB (and within the
cap) the proxy is never called.  The 9 MB boundary is inclusive toward
the proxy path, not the direct path. -/
theorem C5_upload_path_selection :
    (∀ (size : ℕ) (env : UploadEnv), assemblyAIMaxSize < size →
      uploadAudio size env = ([], Except.error
        "Audio file is too large. Please record a shorter session or use a lower quality setting.")) ∧
    (∀ (size : ℕ) (env : UploadEnv) (url : String),
      0 < size → size ≤ firebaseFunctionsMaxSize →
      env.proxyResult = Except.ok url →
      uploadAudio size env = ([NetCall.proxy], Except.ok url)) ∧
    (∀ (size : ℕ) (env : UploadEnv) (e : String),
      0 < size → size ≤ firebaseFunctionsMaxSize →
      env.proxyResult = Except.error e → env.hasApiKey = true →
      (uploadAudio size env).1 = [NetCall.proxy, NetCall.direct]) ∧
    (∀ (size : ℕ) (env : UploadEnv),
      firebaseFunctionsMaxSize < size → size ≤ assemblyAIMaxSize →
      NetCall.proxy ∉ (uploadAudio size env).1) := by
  have hcap : firebaseFunctionsMaxSize < assemblyAIMaxSize := by decide
  refine ⟨?_, ?_, ?_, ?_⟩
  · intro size env hbig
    unfold uploadAudio
    rw [if_neg (by unfold assemblyAIMaxSize at hbig; omega), if_pos hbig]
  · intro size env url hpos hsmall hok
    unfold uploadAudio
    rw [if_neg (by omega), if_neg (by omega), if_neg (by omega), hok]
  · intro size env e hpos hsmall herr hkey
    unfold uploadAudio
    rw [if_neg (by omega), if_neg (by omega), if_neg (by omega), herr]
    exact directUploadStage_after_proxy env hkey
  · intro size env hbig hcapok
    unfold uploadAudio
    rw [if_neg (by unfold firebaseFunctionsMaxSize at hbig; omega),
      if_neg (by omega), if_pos hbig]
    exact directUploadStage_no_proxy env

/-- Witness for C5 at concrete sizes: 1 byte goes through the proxy, 300 MB
fails fast with the size error, 9 MB + 1 makes no proxy call. -/
theorem C5_witness :
    (assemblyAIMaxSize < 300 * 1024 * 1024 ∧
      uploadAudio (300 * 1024 * 1024) ⟨Except.ok "u", Except.ok "u", true⟩
        = ([], Except.error
            "Audio file is too large. Please record a shorter session or use a lower quality setting.")) ∧
    (0 < 1 ∧ 1 ≤ firebaseFunctionsMaxSize ∧
      uploadAudio 1 ⟨Except.ok "u", Except.ok "u", true⟩
        = ([NetCall.proxy], Except.ok "u")) ∧
    (firebaseFunctionsMaxSize < 9 * 1024 * 1024 + 1 ∧
      9 * 1024 * 1024 + 1 ≤ assemblyAIMaxSize ∧
      NetCall.proxy ∉
        (uploadAudio (9 * 1024 * 1024 + 1) ⟨Except.ok "u", Except.ok "u", true⟩).1) :=
  ⟨⟨by decide, C5_upload_path_selection.1 (300 * 1024 * 1024) _ (by decide)⟩,
    ⟨by decide, by decide,
      C5_upload_path_selection.2.1 1 ⟨Except.ok "u", Except.ok "u", true⟩ "u"
        (by decide) (by decide) rfl⟩,
    ⟨by decide, by decide,
      C5_upload_path_selection.2.2.2 (9 * 1024 * 1024 + 1)
        ⟨Except.ok "u", Except.ok "u", true⟩ (by decide) (by decide)⟩⟩

/-! ## Hybrid recognition orchestrator

`HybridSpeechRecognitionService` holds the sticky `apiFailed` flag and the
`useAPI` preference (`isConfigured()` of the remote client always returns
true, so the constructor and `resetFallback()` both set `useAPI` true).
The error interceptor installed on the remote path falls back to the
browser recognizer exactly when the error text matches the source's
substring heuristics.
-/

/-- The substring heuristic of the wrapped error handler:
`error.includes("Network error") || error.includes("Failed to fetch") ||
error.includes("fetch")`, case-sensitive. -/
def isNetworkShapedError (err : String) : Bool :=
  jsIncludes err "Network error" || jsIncludes err "Failed to fetch" ||
    jsIncludes err "fetch"

/-- Which backend `currentService` points at. -/
inductive ActiveBackend where
  | api : ActiveBackend
  | browser : ActiveBackend
deriving DecidableEq

/-- Orchestrator state: the sticky failure flag, the backend preference,
and the currently active service. -/
structure HybridState where
  apiFailed : Bool
  useAPI : Bool
  current : Option ActiveBackend
deriving DecidableEq

/-- The wrapped error handler of `startRecognition` on the remote path: a
network-shaped error text sets `apiFailed`, clears `useAPI`, and retries
the browser recognizer when it is supported; every other error is passed
through with no state change. -/
def wrappedError (st : HybridState) (browserSupported : Bool) (err : String) :
    HybridState :=
  if isNetworkShapedError err then
    if browserSupported then
      ⟨true, false, some ActiveBackend.browser⟩
    else
      ⟨true, false, st.current⟩
  else st

/-- Operations that touch the orchestrator state. -/
inductive HybridOp where
  | startOp : HybridOp
  | errorEvent : Bool → String → HybridOp
  | stopOp : HybridOp
  | reset : HybridOp
deriving DecidableEq

/-- One orchestrator step: `startRecognition` picks the remote service only
when `useAPI ∧ ¬apiFailed`; an error event runs the wrapped handler;
`stopRecognition` dispatches without touching the flags; `resetFallback()`
clears `apiFailed` and re-evaluates `useAPI` (to true, as `isConfigured()`
is constant true). -/
def hybridStep (st : HybridState) : HybridOp → HybridState
  | HybridOp.startOp =>
      if st.useAPI = true ∧ st.apiFailed = false then
        { st with current := some ActiveBackend.api }
      else
        { st with current := some ActiveBackend.browser }
  | HybridOp.errorEvent bs err => wrappedError st bs err
  | HybridOp.stopOp => st
  | HybridOp.reset => ⟨false, true, st.current⟩

theorem hybridStep_preserves_apiFailed (st : HybridState) (op : HybridOp)
    (hop : op ≠ HybridOp.reset) (h : st.apiFailed = true) :
    (hybridStep st op).apiFailed = true := by
  cases op with
  | startOp =>
      show (if st.useAPI = true ∧ st.apiFailed = false then
          { st with current := some ActiveBackend.api }
        else { st with current := some ActiveBackend.browser }).apiFailed = true
      split <;> exact h
  | errorEvent bs err =>
      show (wrappedError st bs err).apiFailed = true
      unfold wrappedError
      split
      · split <;> rfl
      · exact h
  | stopOp => exact h
  | reset => exact absurd rfl hop

/-- C6 counterexample: the error text "network unreachable" contains
"network", yet the orchestrator does not transition — the source matches
the case-sensitive substrings "Network error", "Failed to fetch" and
"fetch" only, none of which occur here, so the error is passed through and
`apiFailed` stays false with the remote backend still in use. -/
theorem C6_counterexample :
    jsIncludes "network unreachable" "network" = true ∧
    hybridStep ⟨false, true, some ActiveBackend.api⟩
        (HybridOp.errorEvent true "network unreachable")
      = ⟨false, true, some ActiveBackend.api⟩ := by
  decide

/-- C6 (amended): when delegating to the remote backend, an error whose
text contains "Network error", "Failed to fetch" or "fetch"
(case-sensitively — not every text containing "network") sets `apiFailed`
and clears `useAPI`, switching to the browser recognizer when it is
supported; non-matching errors are passed through unchanged; once set,
`apiFailed` stays true across every sequence of operations that does not
include `resetFallback()`, a later start never picks the remote backend
again, and only `resetFallback()` clears the flag. -/
theorem C6_sticky_fallback :
    (∀ (st : HybridState) (err : String), isNetworkShapedError err = true →
      wrappedError st true err = ⟨true, false, some ActiveBackend.browser⟩) ∧
    (∀ (st : HybridState) (bs : Bool) (err : String),
      isNetworkShapedError err = false → wrappedError st bs err = st) ∧
    (∀ (st : HybridState) (ops : List HybridOp), st.apiFailed = true →
      (∀ op ∈ ops, op ≠ HybridOp.reset) →
      (ops.foldl hybridStep st).apiFailed = true) ∧
    (∀ st : HybridState, st.apiFailed = true →
      hybridStep st HybridOp.startOp = { st with current := some ActiveBackend.browser }) ∧
    (∀ st : HybridState, (hybridStep st HybridOp.reset).apiFailed = false) := by
  refine ⟨?_, ?_, ?_, ?_, ?_⟩
  · intro st err h
    unfold wrappedError
    rw [if_pos h, if_pos rfl]
  · intro st bs err h
    unfold wrappedError
    rw [if_neg (by simp [h])]
  · intro st ops
    induction ops generalizing st with
    | nil => intro h _; exact h
    | cons op rest ih =>
        intro h hops
        show (rest.foldl hybridStep (hybridStep st op)).apiFailed = true
        exact ih (hybridStep st op)
          (hybridStep_preserves_apiFailed st op (hops op (by simp)) h)
          fun x hx => hops x (by simp [hx])
  · intro st h
    unfold hybridStep
    rw [if_neg (by simp [h])]
  · intro st
    rfl

/-- Witness for C6: a concrete "Network error: blocked" event flips a
fresh remote session to the browser backend, and the flag survives a
subsequent stop, error and start. -/
theorem C6_witness :
    isNetworkShapedError "Network error: blocked" = true ∧
    wrappedError ⟨false, true, some ActiveBackend.api⟩ true "Network error: blocked"
      = ⟨true, false, some ActiveBackend.browser⟩ ∧
    (([HybridOp.stopOp, HybridOp.errorEvent true "boom",
        HybridOp.startOp].foldl hybridStep
      (⟨true, false, some ActiveBackend.browser⟩ : HybridState)).apiFailed = true) :=
  ⟨by decide,
    C6_sticky_fallback.1 ⟨false, true, some ActiveBackend.api⟩
      "Network error: blocked" (by decide),
    C6_sticky_fallback.2.2.1 ⟨true, false, some ActiveBackend.browser⟩
      [HybridOp.stopOp, HybridOp.errorEvent true "boom", HybridOp.startOp]
      rfl (by decide)⟩

/-! ## Recorder stop path

`AudioRecorder.stopRecording` resolves the captured artifact: on the Web
Audio strategy (after the 150 ms settle delay, which has no observable
effect on the produced value and is not modelled) it rejects when no
sample chunk was captured, converts to WAV otherwise; on the MediaRecorder
strategy it resolves the concatenation of the recorded chunks with the
negotiated MIME type.
-/

/-- `AudioRecorder` state at the moment `stopRecording` is called. -/
structure RecorderState where
  isRecording : Bool
  useWebAudio : Bool
  hasAudioContext : Bool
  hasMediaRecorder : Bool
  audioChunks : List (List ℕ)
  audioBuffer : List (List ℚ)
  sampleRate : ℕ
  mimeType : String

/-- `AudioRecorder.stopRecording`, as the value the returned promise
settles with: an artifact (bytes and MIME type) or a rejection message. -/
def stopRecording (st : RecorderState) : Except String (List ℕ × String) :=
  if st.isRecording = false then Except.error "Not currently recording"
  else if st.useWebAudio = true ∧ st.hasAudioContext = true then
    if st.audioBuffer.length = 0 then
      Except.error "No audio data recorded. Please ensure your microphone is working."
    else
      match convertToWAV st.audioBuffer st.sampleRate with
      | none => Except.error "Failed to convert audio: No audio data to convert"
      | some w =>
        if w.length = 0 then Except.error "Failed to create audio file. Please try again."
        else Except.ok (w, "audio/wav")
  else if st.hasMediaRecorder = true then
    Except.ok (st.audioChunks.flatten, st.mimeType)
  else Except.error "No recording method available"

/-- C7 counterexample: on the MediaRecorder strategy a session that
captured zero audio resolves to an empty artifact instead of failing with
an empty-recording error — the zero-sample check exists only on the Web
Audio path. -/
theorem C7_counterexample :
    stopRecording ⟨true, false, false, true, [], [], 44100, "audio/webm"⟩
      = Except.ok ([], "audio/webm") := rfl

/-- C7 (amended): stopping resolves to a single artifact on both
strategies, but the empty-recording failure is raised only on the Web
Audio strategy: there, zero captured samples reject (with the
no-audio-data message when no chunk arrived at all), and a nonempty
capture resolves to the WAV artifact; on the MediaRecorder strategy the
chunk concatenation is resolved as-is, even when it is empty. -/
theorem C7_stop_recording (st : RecorderState) (hrec : st.isRecording = true) :
    (st.useWebAudio = true → st.hasAudioContext = true →
      st.audioBuffer = [] →
      stopRecording st
        = Except.error "No audio data recorded. Please ensure your microphone is working.") ∧
    (st.useWebAudio = true → st.hasAudioContext = true →
      totalLen st.audioBuffer = 0 →
      ∃ msg, stopRecording st = Except.error msg) ∧
    (st.useWebAudio = true → st.hasAudioContext = true →
      totalLen st.audioBuffer ≠ 0 →
      ∃ w, stopRecording st = Except.ok (w, "audio/wav") ∧
        w.length = 44 + 2 * totalLen st.audioBuffer) ∧
    (st.useWebAudio = false → st.hasMediaRecorder = true →
      stopRecording st = Except.ok (st.audioChunks.flatten, st.mimeType)) := by
  refine ⟨?_, ?_, ?_, ?_⟩
  · intro hweb hctx hempty
    unfold stopRecording
    rw [if_neg (by simp [hrec]), if_pos ⟨hweb, hctx⟩, if_pos (by simp [hempty])]
  · intro hweb hctx htot
    by_cases hempty : st.audioBuffer = []
    · exact ⟨_, by
        unfold stopRecording
        rw [if_neg (by simp [hrec]), if_pos ⟨hweb, hctx⟩, if_pos (by simp [hempty])]⟩
    · refine ⟨"Failed to convert audio: No audio data to convert", ?_⟩
      unfold stopRecording
      rw [if_neg (by simp [hrec]), if_pos ⟨hweb, hctx⟩,
        if_neg (by simpa using hempty)]
      unfold convertToWAV
      rw [if_pos htot]
  · intro hweb hctx htot
    refine ⟨wavBytes st.audioBuffer.flatten st.sampleRate, ?_, ?_⟩
    · unfold stopRecording
      have hne : ¬ st.audioBuffer.length = 0 := by
        intro hlen
        rw [List.length_eq_zero] at hlen
        rw [hlen] at htot
        exact htot rfl
      rw [if_neg (by simp [hrec]), if_pos ⟨hweb, hctx⟩, if_neg hne,
        convertToWAV_eq st.audioBuffer st.sampleRate htot]
      show (if (wavBytes st.audioBuffer.flatten st.sampleRate).length = 0 then
          Except.error "Failed to create audio file. Please try again."
        else Except.ok (wavBytes st.audioBuffer.flatten st.sampleRate, "audio/wav"))
        = Except.ok (wavBytes st.audioBuffer.flatten st.sampleRate, "audio/wav")
      rw [if_neg (by rw [wavBytes_length]; omega)]
    · rw [wavBytes_length, totalLen_eq_length_flatten]
  · intro hweb hmr
    unfold stopRecording
    rw [if_neg (by simp [hrec]), if_neg (by simp [hweb]), if_pos hmr]

/-- Witness for C7 at concrete states: an empty Web Audio capture rejects
with the no-audio-data message, a one-sample Web Audio capture resolves to
a 46-byte WAV artifact, and a MediaRecorder capture resolves its chunks. -/
theorem C7_witness :
    stopRecording ⟨true, true, true, false, [], [], 44100, "audio/webm"⟩
      = Except.error "No audio data recorded. Please ensure your microphone is working." ∧
    (∃ w, stopRecording ⟨true, true, true, false, [], [[(0 : ℚ)]], 44100, "audio/webm"⟩
      = Except.ok (w, "audio/wav") ∧
      w.length = 44 + 2 * totalLen [[(0 : ℚ)]]) ∧
    stopRecording ⟨true, false, false, true, [[1, 2]], [], 44100, "audio/mp4"⟩
      = Except.ok ([[(1 : ℕ), 2]].flatten, "audio/mp4") :=
  ⟨(C7_stop_recording ⟨true, true, true, false, [], [], 44100, "audio/webm"⟩ rfl).1
      rfl rfl rfl,
    (C7_stop_recording ⟨true, true, true, false, [], [[(0 : ℚ)]], 44100, "audio/webm"⟩
      rfl).2.2.1 rfl rfl (by decide),
    (C7_stop_recording ⟨true, false, false, true, [[1, 2]], [], 44100, "audio/mp4"⟩
      rfl).2.2.2 rfl rfl⟩

/-! ## On-device recognizer result handler

The `onresult` handler of the browser recognizer accumulates, over the
results of one host event, a final transcript (only from final segments
whose top-alternative confidence exceeds 0.7) and an interim transcript,
then emits a final event with the normalized final text when it is
nonempty, an interim event when only interim text is nonempty, and nothing
otherwise.  The normalization (`improveTranscription`) is kept abstract as
a parameter: the gating behaviour under scrutiny is independent of it.
-/

/-- One host recognition segment: top alternative and finality flag. -/
structure SpeechResult where
  transcript : String
  confidence : ℚ
  isFinal : Bool

/-- The accumulation loop of the `onresult` handler: final segments above
the 0.7 confidence gate extend the final transcript, interim segments
extend the interim transcript, low-confidence finals are skipped. -/
def accumulateResults (rs : List SpeechResult) : String × String :=
  rs.foldl
    (fun acc r =>
      if r.isFinal = true then
        if r.confidence > 7 / 10 then (acc.1 ++ r.transcript, acc.2) else acc
      else (acc.1, acc.2 ++ r.transcript))
    ("", "")

/-- The emission step of the `onresult` handler: a final event with the
normalized accumulated text when it is nonempty, else an interim event
when the interim text is nonempty, else nothing. -/
def onResultEvent (improve : String → String) (rs : List SpeechResult) :
    Option (String × Bool) :=
  if (accumulateResults rs).1 ≠ "" then
    some (improve (accumulateResults rs).1, true)
  else if (accumulateResults rs).2 ≠ "" then
    some ((accumulateResults rs).2, false)
  else none

theorem string_empty_append (s : String) : "" ++ s = s := by
  cases s
  rfl

/-- C8 counterexample: a host segment marked final with empty transcript
text and confidence 1 (which exceeds 0.7) is NOT promoted to a final
event — emission additionally requires the accumulated final text to be
nonempty, so the claimed "if and only if" fails in the "if" direction. -/
theorem C8_counterexample :
    (7 / 10 : ℚ) < 1 ∧
    onResultEvent id [⟨"", 1, true⟩] = none := by
  constructor
  · norm_num
  · have hgt : ((1 : ℚ) > 7 / 10) := by norm_num
    simp [onResultEvent, accumulateResults, hgt, string_empty_append]

/-- C8 (amended): for a host event carrying a single final segment, a
final event (with the normalized text) is emitted exactly when the
top-alternative confidence exceeds 0.7 AND the segment text is nonempty;
in particular a final segment with confidence 0.65 is dropped silently —
nothing is emitted for it, whatever its text. -/
theorem C8_confidence_gate (improve : String → String) (t : String) (c : ℚ) :
    onResultEvent improve [⟨t, c, true⟩]
      = (if 7 / 10 < c ∧ t ≠ "" then some (improve t, true) else none) ∧
    onResultEvent improve [⟨t, 13 / 20, true⟩] = none := by
  constructor
  · by_cases hc : (7 : ℚ) / 10 < c <;> by_cases ht : t = "" <;>
      simp [onResultEvent, accumulateResults, hc, ht, string_empty_append]
  · have hlt : ¬ ((13 : ℚ) / 20 > 7 / 10) := by norm_num
    simp [onResultEvent, accumulateResults, hlt]

/-! ## Streaming client start guard -/

/-- The remote client state the `startRecognition` guard inspects, plus
whether the result/error callbacks have been installed. -/
structure APIServiceState where
  isRecording : Bool
  callbacksInstalled : Bool
deriving DecidableEq

/-- The entry guard of `SpeechRecognitionAPIService.startRecognition`:
when a recording is already in progress it reports
"Recording is already in progress." through the error callback and
returns at once — before the callbacks are stored or any session work
begins.  The result lists the error-callback invocations and whether the
call proceeded past the guard. -/
def startRecognitionAPI (st : APIServiceState) :
    APIServiceState × List String × Bool :=
  if st.isRecording = true then
    (st, ["Recording is already in progress."], false)
  else
    ({ st with callbacksInstalled := true }, [], true)

/-- C9: calling startRecognition while a recording session is in progress
invokes the error callback once with the already-in-progress message and
returns without proceeding or modifying any state. -/
theorem C9_already_in_progress (st : APIServiceState)
    (h : st.isRecording = true) :
    startRecognitionAPI st = (st, ["Recording is already in progress."], false) := by
  unfold startRecognitionAPI
  rw [if_pos h]

/-- Witness for C9 at a concrete in-progress state. -/
theorem C9_witness :
    startRecognitionAPI ⟨true, false⟩
      = (⟨true, false⟩, ["Recording is already in progress."], false) :=
  C9_already_in_progress ⟨true, false⟩ rfl

/-! ## Live session transcript state (multi-speaker frame effect)

The recognition result callback installed by `handleStartRecording`
returns immediately when multi-speaker mode is enabled; otherwise final
results append a timestamped line to the transcript and the session
content and clear the interim text, and interim results replace the
interim text.  After a multi-speaker stop, the diarized transcript
replaces the transcript and the session content wholesale.
-/

/-- The live-session state the callbacks mutate. -/
structure SessionState where
  transcript : String
  interimTranscript : String
  sessionContent : List String
deriving DecidableEq

/-- The `onResult` callback of `handleStartRecording`. -/
def onRecognitionResult (multispeaker : Bool) (timestamp : String)
    (st : SessionState) (text : String) (isFinal : Bool) : SessionState :=
  if multispeaker = true then st
  else if isFinal = true then
    { transcript := st.transcript ++ (if st.transcript = "" then "" else "\n")
        ++ ("[" ++ timestamp ++ "] " ++ text),
      interimTranscript := "",
      sessionContent := st.sessionContent ++ ["[" ++ timestamp ++ "] " ++ text] }
  else
    { st with interimTranscript := text }

/-- JavaScript `String.prototype.trim`: strip whitespace from both ends. -/
def jsTrim (s : String) : String :=
  String.mk (((s.data.dropWhile Char.isWhitespace).reverse.dropWhile
    Char.isWhitespace).reverse)

/-- The diarized-result application of `handleStopRecording`: a transcript
with nonempty trimmed text replaces the live transcript and the session
content wholesale; otherwise the handler throws. -/
def applyDiarizedResult (st : SessionState) (diarized : String) :
    Except String SessionState :=
  if jsTrim diarized ≠ "" then
    Except.ok ⟨diarized, st.interimTranscript, [diarized]⟩
  else
    Except.error "No transcript was generated from the audio. Please try recording again."

/-- C10: with multi-speaker mode enabled, every recognition result event —
partial or final — leaves the transcript, the interim text and the
accumulated session content unchanged; the transcript changes only when
the diarized result replaces it (and the session content) wholesale after
recording stops. -/
theorem C10_multispeaker_frame :
    (∀ (ts : String) (st : SessionState) (text : String) (f : Bool),
      onRecognitionResult true ts st text f = st) ∧
    (∀ (st : SessionState) (d : String), jsTrim d ≠ "" →
      applyDiarizedResult st d = Except.ok ⟨d, st.interimTranscript, [d]⟩) := by
  constructor
  · intro ts st text f
    rfl
  · intro st d h
    unfold applyDiarizedResult
    rw [if_pos h]

/-- Witness for C10: a concrete diarized transcript replaces a concrete
session state wholesale. -/
theorem C10_witness :
    jsTrim "[Speaker A] hi" ≠ "" ∧
    applyDiarizedResult ⟨"old", "live", ["old"]⟩ "[Speaker A] hi"
      = Except.ok ⟨"[Speaker A] hi", "live", ["[Speaker A] hi"]⟩ :=
  ⟨by decide,
    C10_multispeaker_frame.2 ⟨"old", "live", ["old"]⟩ "[Speaker A] hi" (by decide)⟩
